import Mathlib

/-!
# Brickchain go-controller: binding lifecycle and mandate-token verification

A shallow embedding of `verify.go`, `handlers/requests.go`,
`handlers/handlers.go`, `mock.go`, `gorm/binding.go` and `gorm/service.go`,
followed by the properties established about them.

Conventions of the embedding

* A Go function that can return or crash is a function into `Run`.
* `time.Time` instants are integers (nanoseconds on the UTC time line);
  `time.Duration` is a Go `int64`, so duration arithmetic wraps. The
  readings of `time.Now()` within one call are one instant `now`.
* The packages the repository imports (go-crypto, go-jose, go-document,
  encoding/json, gorm) are not part of it: their operations are fields of a
  parameter record (`Engine`, `Codec`, `Store`, `KeyEngine`, `RowCodec`).
* A nil slice and an empty slice are both the empty list.
* What a random generator returns during a call (`GenerateRandomString`,
  `NewKey`) is an argument of the call.
-/

namespace Controller

/-! ## Go runtime -/

/-- Outcome of running a Go function: it returns a value or the goroutine
crashes on a nil dereference. -/
inductive Run (α : Type) where
  | returned (a : α)
  | panicked
  deriving DecidableEq, Repr

/-- Instants of `time.Time`: nanoseconds on the UTC time line. -/
abbrev Time := Int

/-- Go `t.Before(u)`. -/
def Time.Before (t u : Time) : Bool := decide (t < u)

/-- Go `t.After(u)`. -/
def Time.After (t u : Time) : Bool := decide (u < t)

/-- Two-complement wrap of an integer into the range of a Go `int64`. -/
def wrapInt64 (x : Int) : Int :=
  (x + 9223372036854775808) % 18446744073709551616 - 9223372036854775808

/-- Go `time.Second`, in nanoseconds. -/
def Second : Int := 1000000000

/-- Go `time.Second * time.Duration(ttl)`: an `int64` product. -/
def ttlDuration (ttl : Int) : Int := wrapInt64 (Second * ttl)

/-- Go `t.Add(d)` for a duration `d`. -/
def Time.Add (t : Time) (d : Int) : Time := t + d

/-! ## Documents (go-document), the fields this repository reads -/

/-- The `document.Mandate` record. -/
structure Mandate where
  Role : String
  ValidFrom : Time
  ValidUntil : Time
  deriving DecidableEq, Repr

/-- The `document.MandateToken` record; `TTL` is a Go `int`. -/
structure MandateToken where
  Timestamp : Time
  TTL : Int
  Certificate : String
  Mandates : List String
  deriving DecidableEq, Repr

/-! ## The signature engine (go-crypto, go-jose, encoding/json) -/

/-- The operations of the imported crypto and JSON packages that
`VerifyMandateToken` calls. `Key` stands for `*jose.JsonWebKey`, `JWS` for a
parsed signed envelope. `Signatures j` lists the header keys of the signatures
of `j`; the two decoders return `none` when `json.Unmarshal` leaves the target
pointer nil (a JSON `null` payload). -/
structure Engine (Key JWS : Type) where
  UnmarshalSignature : String → Except String JWS
  Signatures : JWS → List Key
  Verify : JWS → Key → Except String String
  Thumbprint : Key → String
  VerifyCertificate : String → Int → Except String Key
  unmarshalMandateToken : String → Except String (Option MandateToken)
  unmarshalMandate : String → Except String (Option Mandate)

/-- The errors `VerifyMandateToken` returns: those it creates itself, one
constructor per `fmt.Errorf` message, and those it passes on from a
collaborator. -/
inductive VerifyError where
  | collaborator (msg : String)
  | noSignersOfToken
  | tokenExpired
  | noSignersOfMandate
  | wrongMandateSigner
  | mandateNotYetValid
  | mandateExpired
  deriving DecidableEq, Repr

/-- The three results of `VerifyMandateToken`; `clientKey = none` and
`err = none` are Go `nil`. -/
structure VerifyResult (Key : Type) where
  mandates : List Mandate
  clientKey : Option Key
  err : Option VerifyError
  deriving DecidableEq, Repr

/-- The explicit `return nil, nil, err` of `VerifyMandateToken`. -/
def failNil {Key : Type} (err : VerifyError) : Run (VerifyResult Key) :=
  .returned { mandates := [], clientKey := none, err := some err }

/-- One iteration of the mandate loop of `VerifyMandateToken` (verify.go lines
52-81) up to, not including, the `append`: the decoded mandate or the error the
iteration returns with. -/
def checkMandate {Key JWS : Type} (e : Engine Key JWS) (mandateSigner : Key) (now : Time)
    (mandateString : String) : Run (Except VerifyError Mandate) :=
  match e.UnmarshalSignature mandateString with
  | .error msg => .returned (.error (.collaborator msg))
  | .ok mandateJWS =>
    match e.Signatures mandateJWS with
    | [] => .returned (.error .noSignersOfMandate)
    | sig0 :: _ =>
      if e.Thumbprint sig0 ≠ e.Thumbprint mandateSigner then
        .returned (.error .wrongMandateSigner)
      else
        match e.Verify mandateJWS mandateSigner with
        | .error msg => .returned (.error (.collaborator msg))
        | .ok mandatePayload =>
          match e.unmarshalMandate mandatePayload with
          | .error msg => .returned (.error (.collaborator msg))
          | .ok none => .panicked
          | .ok (some mandate) =>
            if mandate.ValidFrom.Before now then
              .returned (.error .mandateNotYetValid)
            else if mandate.ValidUntil.After now then
              .returned (.error .mandateExpired)
            else
              .returned (.ok mandate)

/-- The `for _, mandateString := range mandateToken.Mandates` loop of
`VerifyMandateToken` with its accumulator `mandates`, and the final
`return mandates, clientKey, err` (where `err` is nil). -/
def mandateLoop {Key JWS : Type} (e : Engine Key JWS) (mandateSigner : Key) (now : Time)
    (clientKey : Key) : List String → List Mandate → Run (VerifyResult Key)
  | [], mandates => .returned { mandates := mandates, clientKey := some clientKey, err := none }
  | mandateString :: rest, mandates =>
    match checkMandate e mandateSigner now mandateString with
    | .panicked => .panicked
    | .returned (.error err) =>
      .returned { mandates := mandates, clientKey := none, err := some err }
    | .returned (.ok mandate) =>
      mandateLoop e mandateSigner now clientKey rest (mandates ++ [mandate])

/-- The function `VerifyMandateToken` of verify.go. `now` is the reading of
`time.Now().UTC()` during the call. -/
def VerifyMandateToken {Key JWS : Type} (e : Engine Key JWS) (now : Time)
    (token : String) (mandateSigner : Key) (keyLevel : Int) : Run (VerifyResult Key) :=
  match e.UnmarshalSignature token with
  | .error msg => failNil (.collaborator msg)
  | .ok tokenJWS =>
    match e.Signatures tokenJWS with
    | [] => failNil .noSignersOfToken
    | clientKey :: _ =>
      match e.Verify tokenJWS clientKey with
      | .error msg => failNil (.collaborator msg)
      | .ok tokenPayload =>
        match e.unmarshalMandateToken tokenPayload with
        | .error msg => failNil (.collaborator msg)
        | .ok none => .panicked
        | .ok (some mandateToken) =>
          if (mandateToken.Timestamp.Add (ttlDuration mandateToken.TTL)).Before now then
            failNil .tokenExpired
          else if mandateToken.Certificate ≠ "" then
            match e.VerifyCertificate mandateToken.Certificate keyLevel with
            | .error msg => failNil (.collaborator msg)
            | .ok issuer => mandateLoop e mandateSigner now issuer mandateToken.Mandates []
          else
            mandateLoop e mandateSigner now clientKey mandateToken.Mandates []

/-! ## Authorization wrappers (handlers/requests.go) -/

/-- The `document.RealmDescriptor` record. -/
structure RealmDescriptor (Key : Type) where
  Name : String
  PublicKey : Key
  deriving DecidableEq, Repr

/-- The `document.ControllerBinding` record. `RealmDescriptor` is a pointer. -/
structure ControllerBinding (Key : Type) where
  AdminRoles : List String
  ControllerCertificate : String
  Mandates : List String
  RealmDescriptor : Option (RealmDescriptor Key)
  deriving DecidableEq, Repr

/-- The `document.ControllerDescriptor` record. -/
structure ControllerDescriptor (K : Type) where
  AdminUI : String
  Status : String
  Key : Option K
  deriving DecidableEq, Repr

/-- The read methods of the Go interface `Binding` (binding.go): what each
accessor returns on one binding at one moment. A nil pointer is `none`. -/
structure Binding (Key : Type) where
  ID : String
  Secret : String
  PublicKey : Option Key
  Descriptor : ControllerDescriptor Key
  Certificate : String
  Mandates : List String
  AdminRoles : List String
  Realm : Option (RealmDescriptor Key)
  Status : String
  BindEndpoint : String
  ControllerBinding : Option (ControllerBinding Key)
  deriving DecidableEq, Repr

/-- One entry of `req.Mandates()`: a mandate and the key that signed it. -/
structure AuthenticatedMandate (Key : Type) where
  Signer : Key
  Mandate : Mandate
  deriving DecidableEq, Repr

/-- What the wrappers read of an `httphandler.AuthenticatedRequest`:
`req.URL().Query().Get("binding")` and `req.Mandates()`. -/
structure AuthenticatedRequest (Key : Type) where
  bindingQuery : String
  Mandates : List (AuthenticatedMandate Key)

/-- What the wrappers read of an `httphandler.ActionRequest`; `ActionParams`
is `req.Action().Params`, a Go map that may be nil. -/
structure ActionRequest (Key : Type) where
  bindingQuery : String
  Mandates : List (AuthenticatedMandate Key)
  ActionParams : Option (String → Option String)

/-- The struct `standardAuthenticatedRequestWithBinding`. -/
structure standardAuthenticatedRequestWithBinding (Key : Type) where
  AuthenticatedRequest : AuthenticatedRequest Key
  binding : Binding Key

/-- The struct `standardActionRequestWithBinding`. -/
structure standardActionRequestWithBinding (Key : Type) where
  ActionRequest : ActionRequest Key
  binding : Binding Key

/-- What a wrapped handler answers: an error response built by the wrapper
itself (`httphandler.NewErrorResponse`), or whatever the inner handler `h`
returned for the request it was handed. -/
inductive Response (ρ : Type) where
  | errorResponse (status : Nat) (msg : String)
  | handled (resp : ρ)
  deriving DecidableEq, Repr

def StatusBadRequest : Nat := 400
def StatusForbidden : Nat := 403
def StatusInternalServerError : Nat := 500

/-- The function `hasRole` of handlers/requests.go. -/
def hasRole : List String → String → Bool
  | [], _ => false
  | r :: roleList, role => if r = role then true else hasRole roleList role

/-- The `for _, mandate := range req.Mandates()` loop shared by the two
authorization wrappers, started with `success := false`. -/
def successLoop {Key JWS : Type} (e : Engine Key JWS) (binding : Binding Key) (realmTP : String)
    (mandates : List (AuthenticatedMandate Key)) : Bool :=
  mandates.foldl
    (fun success mandate =>
      if realmTP = e.Thumbprint mandate.Signer && hasRole binding.AdminRoles mandate.Mandate.Role
      then true else success)
    false

/-- The part of both authorization wrappers after the binding lookup:
`binding.Realm().PublicKey` dereferences the realm pointer. -/
def authorize {Key JWS ρ : Type} (e : Engine Key JWS) (binding : Binding Key)
    (mandates : List (AuthenticatedMandate Key)) (call : Unit → ρ) : Run (Response ρ) :=
  match binding.Realm with
  | none => .panicked
  | some realm =>
    let realmTP := e.Thumbprint realm.PublicKey
    if successLoop e binding realmTP mandates = false then
      .returned (.errorResponse StatusForbidden "Mandate not signed by binding realm")
    else
      .returned (.handled (call ()))

/-- The wrapper `addAuthenticatedBinding`; `Get` is `bm.Get`. -/
def addAuthenticatedBinding {Key JWS ρ : Type} (e : Engine Key JWS)
    (Get : String → Except String (Binding Key))
    (h : standardAuthenticatedRequestWithBinding Key → ρ)
    (req : AuthenticatedRequest Key) : Run (Response ρ) :=
  let bindID := req.bindingQuery
  if bindID = "" then
    .returned (.errorResponse StatusBadRequest "No binding in request")
  else
    match Get bindID with
    | .error err =>
      .returned (.errorResponse StatusInternalServerError ("could not lookup binding: " ++ err))
    | .ok binding =>
      authorize e binding req.Mandates
        (fun _ => h { AuthenticatedRequest := req, binding := binding })

/-- The binding id `addActionBinding` settles on: the query parameter, or the
`binding` entry of the action parameters; `none` is the BadRequest answer. -/
def actionBindID {Key : Type} (req : ActionRequest Key) : Option String :=
  if req.bindingQuery = "" then
    match req.ActionParams with
    | none => none
    | some params => params "binding"
  else
    some req.bindingQuery

/-- The wrapper `addActionBinding`. -/
def addActionBinding {Key JWS ρ : Type} (e : Engine Key JWS)
    (Get : String → Except String (Binding Key))
    (h : standardActionRequestWithBinding Key → ρ)
    (req : ActionRequest Key) : Run (Response ρ) :=
  match actionBindID req with
  | none => .returned (.errorResponse StatusBadRequest "No binding in request")
  | some bindID =>
    match Get bindID with
    | .error err =>
      .returned (.errorResponse StatusInternalServerError ("could not lookup binding: " ++ err))
    | .ok binding =>
      authorize e binding req.Mandates
        (fun _ => h { ActionRequest := req, binding := binding })

/-! ## The in-memory binding (mock.go) -/

/-- The data fields of the struct `mockBinding`. -/
structure mockFields (Key : Type) where
  id : String
  secret : String
  publicKey : Option Key
  descriptor : ControllerDescriptor Key
  binding : Option (ControllerBinding Key)
  status : String
  bindEndpoint : String
  deriving DecidableEq, Repr

/-- The struct `mockBinding`. A hook is a Go `func(Binding)`: it is handed the
binding and acts on it through the interface, so it is a function on the data
fields; `none` is a nil hook. -/
structure mockBinding (Key : Type) extends mockFields Key where
  postBindFunc : Option (mockFields Key → mockFields Key)
  postUnbindFunc : Option (mockFields Key → mockFields Key)

namespace mockBinding

variable {Key : Type}

/-- Run a hook field (`if f != nil { f(m) }`). -/
def runHook (m : mockBinding Key) (hook : Option (mockFields Key → mockFields Key)) :
    mockBinding Key :=
  match hook with
  | some f => { m with tomockFields := f m.tomockFields }
  | none => m

/-- `mockBinding.Bind`; the second component is the returned error. -/
def Bind (m : mockBinding Key) (c : Option (ControllerBinding Key)) :
    mockBinding Key × Option String :=
  let m1 : mockBinding Key := { m with binding := c }
  (m1.runHook m1.postBindFunc, none)

/-- `mockBinding.Unbind`. -/
def Unbind (m : mockBinding Key) : mockBinding Key × Option String :=
  let m1 : mockBinding Key := { m with binding := none }
  (m1.runHook m1.postUnbindFunc, none)

/-- `mockBinding.SetStatus`. -/
def SetStatus (m : mockBinding Key) (v : String) : mockBinding Key × Option String :=
  ({ m with status := v }, none)

def Certificate (m : mockBinding Key) : String :=
  match m.binding with
  | none => ""
  | some b => b.ControllerCertificate

def Mandates (m : mockBinding Key) : List String :=
  match m.binding with
  | none => []
  | some b => b.Mandates

def AdminRoles (m : mockBinding Key) : List String :=
  match m.binding with
  | none => []
  | some b => b.AdminRoles

def Realm (m : mockBinding Key) : Option (RealmDescriptor Key) :=
  match m.binding with
  | none => none
  | some b => b.RealmDescriptor

def ControllerBinding (m : mockBinding Key) : Option (ControllerBinding Key) :=
  m.binding

/-- The binding as seen through the interface `Binding`. -/
def asBinding (m : mockBinding Key) : Binding Key where
  ID := m.id
  Secret := m.secret
  PublicKey := m.publicKey
  Descriptor := m.descriptor
  Certificate := m.Certificate
  Mandates := m.Mandates
  AdminRoles := m.AdminRoles
  Realm := m.Realm
  Status := m.status
  BindEndpoint := m.bindEndpoint
  ControllerBinding := m.ControllerBinding

end mockBinding

/-! ## Go `strings` -/

/-- Go `strings.Join(elems, sep)`. -/
def stringsJoin : List String → String → String
  | [], _ => ""
  | [a], _ => a
  | a :: b :: rest, sep => a ++ sep ++ stringsJoin (b :: rest) sep

/-- Splitting a character list at every occurrence of `sep`: the pieces
between the separators, in order (one more piece than separators). -/
def splitChars (sep : Char) : List Char → List (List Char)
  | [] => [[]]
  | c :: cs =>
    if c = sep then [] :: splitChars sep cs
    else
      match splitChars sep cs with
      | [] => [[c]]
      | piece :: pieces => (c :: piece) :: pieces

/-- Go `strings.Split(s, sep)` for a separator of one character. -/
def stringsSplit (s : String) (sep : Char) : List String :=
  (splitChars sep s.data).map String.mk

/-! ## The relational binding (gorm/binding.go) -/

/-- The columns of the struct `gormBinding`: the row gorm reads and writes. -/
structure gormColumns where
  DBid : String
  DBsecret : String
  DBpublicKey : String
  DBdescriptor : String
  DBbinding : String
  DBcertificate : String
  DBmandates : String
  DBadminRoles : String
  DBrealm : String
  DBstatus : String
  DBbindEndpoint : String
  deriving DecidableEq, Repr

/-- The statements the repository issues on its `*gorm.DB`, over a database
state `σ`: `db.Save(row)`, `db.Where("id = ?", id).First(..)` and
`db.Delete(.., "id = ?", id)`. An `Option String` is the `.Error` of the
statement. `db.Save` takes the row by pointer: a row whose primary key `id` is
blank is inserted without that column, and gorm writes the key the database
generated for it back into the struct; `SavedKey row db` is the `id` the struct
holds when `db.Save(row)` returns. -/
structure Store (σ : Type) where
  Save : gormColumns → σ → σ × Option String
  First : String → σ → Except String gormColumns
  Delete : String → σ → σ × Option String
  SavedKey : gormColumns → σ → String

/-- The `json.Marshal` and `json.Unmarshal` calls of gorm/binding.go on realm
descriptors and controller-binding documents. `json.Unmarshal` rejects the
empty input with an error; the two last fields record that. Decoding goes
through a pointer to a pointer, so a JSON `null` decodes to `none`. -/
structure Codec (Key : Type) where
  marshalRealm : Option (RealmDescriptor Key) → Except String String
  unmarshalRealm : String → Except String (Option (RealmDescriptor Key))
  marshalControllerBinding : Option (ControllerBinding Key) → Except String String
  unmarshalControllerBinding : String → Except String (Option (ControllerBinding Key))
  unmarshalRealm_empty : ∀ r, unmarshalRealm "" ≠ .ok r
  unmarshalControllerBinding_empty : ∀ c, unmarshalControllerBinding "" ≠ .ok c

/-- The struct `gormBinding`. The database behind its `db` pointer is passed
to each method as a state of type `σ`. A hook acts on the binding through the
interface and, by the saves that entails, on the database. -/
structure gormBinding (σ : Type) extends gormColumns where
  postBindFunc : Option (gormColumns × σ → gormColumns × σ)
  postUnbindFunc : Option (gormColumns × σ → gormColumns × σ)

namespace gormBinding

variable {Key σ : Type}

/-- `gormBinding.save`. -/
def save (store : Store σ) (g : gormBinding σ) (db : σ) : σ × Option String :=
  store.Save g.togormColumns db

/-- Run a hook field (`if f != nil { f(g) }`). -/
def runHook (g : gormBinding σ) (hook : Option (gormColumns × σ → gormColumns × σ)) (db : σ) :
    gormBinding σ × σ :=
  match hook with
  | some f => ({ g with togormColumns := (f (g.togormColumns, db)).1 }, (f (g.togormColumns, db)).2)
  | none => (g, db)

/-- `gormBinding.setAdminRoles`. -/
def setAdminRoles (g : gormBinding σ) (roles : List String) : gormBinding σ :=
  { g with DBadminRoles := stringsJoin roles "," }

/-- `gormBinding.setRealm`. -/
def setRealm (codec : Codec Key) (g : gormBinding σ) (realm : Option (RealmDescriptor Key)) :
    gormBinding σ × Option String :=
  match codec.marshalRealm realm with
  | .error err => (g, some err)
  | .ok bytes => ({ g with DBrealm := bytes }, none)

/-- `gormBinding.setControllerBinding`. -/
def setControllerBinding (codec : Codec Key) (g : gormBinding σ)
    (c : Option (ControllerBinding Key)) : gormBinding σ × Option String :=
  match codec.marshalControllerBinding c with
  | .error err => (g, some err)
  | .ok bytes => ({ g with DBbinding := bytes }, none)

/-- `gormBinding.Bind`: the binding and database afterwards and the returned
error. A nil document is dereferenced on the first line. -/
def Bind (codec : Codec Key) (store : Store σ) (g : gormBinding σ)
    (c : Option (ControllerBinding Key)) (db : σ) :
    Run ((gormBinding σ × σ) × Option String) :=
  match c with
  | none => .panicked
  | some doc =>
    let g1 : gormBinding σ := { g with DBcertificate := doc.ControllerCertificate }
    let g2 : gormBinding σ := { g1 with DBmandates := stringsJoin doc.Mandates "," }
    let g3 := g2.setAdminRoles doc.AdminRoles
    match g3.setRealm codec doc.RealmDescriptor with
    | (g4, some err) => .returned ((g4, db), some err)
    | (g4, none) =>
      match g4.setControllerBinding codec c with
      | (g5, some err) => .returned ((g5, db), some err)
      | (g5, none) =>
        match g5.save store db with
        | (db1, some err) => .returned ((g5, db1), some err)
        | (db1, none) => .returned (g5.runHook g5.postBindFunc db1, none)

/-- `gormBinding.Unbind`: the hook runs before the save. -/
def Unbind (store : Store σ) (g : gormBinding σ) (db : σ) :
    (gormBinding σ × σ) × Option String :=
  let g1 : gormBinding σ :=
    { g with DBcertificate := "", DBmandates := "", DBadminRoles := "", DBrealm := "",
             DBbinding := "" }
  let (g2, db1) := g1.runHook g1.postUnbindFunc db
  let (db2, err) := g2.save store db1
  ((g2, db2), err)

/-- `gormBinding.SetStatus`. -/
def SetStatus (store : Store σ) (g : gormBinding σ) (v : String) (db : σ) :
    (gormBinding σ × σ) × Option String :=
  let g1 : gormBinding σ := { g with DBstatus := v }
  let (db1, err) := g1.save store db
  ((g1, db1), err)

def Certificate (g : gormBinding σ) : String := g.DBcertificate

def Mandates (g : gormBinding σ) : List String :=
  if g.DBmandates = "" then [] else stringsSplit g.DBmandates ','

def AdminRoles (g : gormBinding σ) : List String :=
  if g.DBadminRoles = "" then [] else stringsSplit g.DBadminRoles ','

def Realm (codec : Codec Key) (g : gormBinding σ) : Option (RealmDescriptor Key) :=
  match codec.unmarshalRealm g.DBrealm with
  | .error _ => none
  | .ok realm => realm

def ControllerBinding (codec : Codec Key) (g : gormBinding σ) :
    Option (ControllerBinding Key) :=
  match codec.unmarshalControllerBinding g.DBbinding with
  | .error _ => none
  | .ok c => c

end gormBinding

/-- The five bound-state accessors of a binding, read together. -/
structure BoundState (Key : Type) where
  Certificate : String
  Mandates : List String
  AdminRoles : List String
  Realm : Option (RealmDescriptor Key)
  ControllerBinding : Option (ControllerBinding Key)
  deriving DecidableEq, Repr

/-- Every bound-state accessor is empty or absent. -/
def BoundState.allEmpty {Key : Type} (b : BoundState Key) : Prop :=
  b.Certificate = "" ∧ b.Mandates = [] ∧ b.AdminRoles = [] ∧ b.Realm = none ∧
    b.ControllerBinding = none

/-- Every bound-state accessor is non-empty or present. -/
def BoundState.allPopulated {Key : Type} (b : BoundState Key) : Prop :=
  b.Certificate ≠ "" ∧ b.Mandates ≠ [] ∧ b.AdminRoles ≠ [] ∧ b.Realm ≠ none ∧
    b.ControllerBinding ≠ none

/-- The bound-state accessors of an in-memory binding. -/
def mockBinding.boundState {Key : Type} (m : mockBinding Key) : BoundState Key where
  Certificate := m.Certificate
  Mandates := m.Mandates
  AdminRoles := m.AdminRoles
  Realm := m.Realm
  ControllerBinding := m.ControllerBinding

/-- The bound-state accessors of a relational binding. -/
def gormBinding.boundState {Key σ : Type} (codec : Codec Key) (g : gormBinding σ) :
    BoundState Key where
  Certificate := g.Certificate
  Mandates := g.Mandates
  AdminRoles := g.AdminRoles
  Realm := g.Realm codec
  ControllerBinding := g.ControllerBinding codec

/-- The contract of a JSON codec that reads back what it wrote: the
`json.Marshal` of a realm descriptor decodes to a realm descriptor, that of an
absent one (`null`) to an absent one, and that of a controller-binding document
to a document. -/
structure Codec.ReadsBack {Key : Type} (codec : Codec Key) : Prop where
  realm_present : ∀ r bytes, codec.marshalRealm (some r) = .ok bytes →
    ∃ r1, codec.unmarshalRealm bytes = .ok (some r1)
  realm_absent : ∀ bytes, codec.marshalRealm none = .ok bytes →
    codec.unmarshalRealm bytes = .ok none
  document_present : ∀ d bytes, codec.marshalControllerBinding (some d) = .ok bytes →
    ∃ d1, codec.unmarshalControllerBinding bytes = .ok (some d1)

/-- The five columns that hold the bound state of a relational binding. -/
def gormColumns.boundColumns (c : gormColumns) : List String :=
  [c.DBcertificate, c.DBmandates, c.DBadminRoles, c.DBrealm, c.DBbinding]

/-! ## Conditions on the input of `VerifyMandateToken` -/

/-- The token passes the token-level checks of `VerifyMandateToken`: it parses
as a signed envelope with at least one signature, the signature verifies under
the embedded key `signer0`, the payload decodes to `mt`, `mt` has not expired
for the verifier, and its certificate, when it carries one, validates.
`clientKey` is the client identity the verifier has then settled on. -/
def PassesTokenChecks {Key JWS : Type} (e : Engine Key JWS) (now : Time) (token : String)
    (keyLevel : Int) (signer0 clientKey : Key) (mt : MandateToken) : Prop :=
  ∃ tokenJWS others payload,
    e.UnmarshalSignature token = .ok tokenJWS ∧
    e.Signatures tokenJWS = signer0 :: others ∧
    e.Verify tokenJWS signer0 = .ok payload ∧
    e.unmarshalMandateToken payload = .ok (some mt) ∧
    (mt.Timestamp.Add (ttlDuration mt.TTL)).Before now = false ∧
    ((mt.Certificate = "" ∧ clientKey = signer0) ∨
      (mt.Certificate ≠ "" ∧ e.VerifyCertificate mt.Certificate keyLevel = .ok clientKey))

/-- The token parses, its signature verifies under the embedded key `signer0`
and its payload decodes to `mt`: the verifier reaches its expiry check. -/
def DecodesTo {Key JWS : Type} (e : Engine Key JWS) (token : String) (signer0 : Key)
    (mt : MandateToken) : Prop :=
  ∃ tokenJWS others payload,
    e.UnmarshalSignature token = .ok tokenJWS ∧
    e.Signatures tokenJWS = signer0 :: others ∧
    e.Verify tokenJWS signer0 = .ok payload ∧
    e.unmarshalMandateToken payload = .ok (some mt)

/-- The mandate string passes the signer and signature checks of the loop and
decodes to `m`: it parses, its first signer has the thumbprint of
`mandateSigner`, its signature verifies under `mandateSigner`, and the payload
decodes to `m`. -/
def SignedMandate {Key JWS : Type} (e : Engine Key JWS) (mandateSigner : Key)
    (mandateString : String) (m : Mandate) : Prop :=
  ∃ mandateJWS sig0 others payload,
    e.UnmarshalSignature mandateString = .ok mandateJWS ∧
    e.Signatures mandateJWS = sig0 :: others ∧
    e.Thumbprint sig0 = e.Thumbprint mandateSigner ∧
    e.Verify mandateJWS mandateSigner = .ok payload ∧
    e.unmarshalMandate payload = .ok (some m)

/-- The mandate string parses and its first signer has a thumbprint other
than that of `mandateSigner`. -/
def WrongSigner {Key JWS : Type} (e : Engine Key JWS) (mandateSigner : Key)
    (mandateString : String) : Prop :=
  ∃ mandateJWS sig0 others,
    e.UnmarshalSignature mandateString = .ok mandateJWS ∧
    e.Signatures mandateJWS = sig0 :: others ∧
    e.Thumbprint sig0 ≠ e.Thumbprint mandateSigner

/-- The mandate string parses and its first signer has the thumbprint of
`mandateSigner`. -/
def RightSigner {Key JWS : Type} (e : Engine Key JWS) (mandateSigner : Key)
    (mandateString : String) : Prop :=
  ∃ mandateJWS sig0 others,
    e.UnmarshalSignature mandateString = .ok mandateJWS ∧
    e.Signatures mandateJWS = sig0 :: others ∧
    e.Thumbprint sig0 = e.Thumbprint mandateSigner

/-! ## Concrete collaborators for evaluating the embedding -/

/-- A signed envelope of the table-driven engine: the keys in its signature
headers, its payload, and the key under which its signature verifies. -/
structure DemoJWS where
  headerKeys : List String
  payload : String
  signedBy : String
  deriving DecidableEq, Repr

/-- Look a string up in a table, failing with `msg`. -/
def lookupOr {β : Type} (table : List (String × β)) (s : String) (msg : String) :
    Except String β :=
  match table.lookup s with
  | some b => .ok b
  | none => .error msg

/-- A table-driven signature engine: keys are named by strings, a key is its
own thumbprint, and envelopes, payloads and certificate chains are listed. -/
def demoEngine (envelopes : List (String × DemoJWS))
    (tokens : List (String × Option MandateToken))
    (mandates : List (String × Option Mandate)) (chains : List (String × String)) :
    Engine String DemoJWS where
  UnmarshalSignature := fun s => lookupOr envelopes s "not a signed envelope"
  Signatures := fun j => j.headerKeys
  Verify := fun j k =>
    if k = j.signedBy then .ok j.payload else .error "signature does not verify"
  Thumbprint := fun k => k
  VerifyCertificate := fun c _ => lookupOr chains c "certificate chain not valid"
  unmarshalMandateToken := fun p => lookupOr tokens p "invalid JSON"
  unmarshalMandate := fun p => lookupOr mandates p "invalid JSON"

/-- A table-driven JSON codec: each listed string decodes to the value next to
it, and a value encodes to the first string listed for it. -/
def demoCodec (realms : List (String × Option (RealmDescriptor String)))
    (docs : List (String × Option (ControllerBinding String))) : Codec String where
  marshalRealm := fun r =>
    match realms.find? (fun p => decide (p.2 = r)) with
    | some p => .ok p.1
    | none => .error "json: unsupported value"
  unmarshalRealm := fun s =>
    if s = "" then .error "unexpected end of JSON input" else lookupOr realms s "invalid JSON"
  marshalControllerBinding := fun c =>
    match docs.find? (fun p => decide (p.2 = c)) with
    | some p => .ok p.1
    | none => .error "json: unsupported value"
  unmarshalControllerBinding := fun s =>
    if s = "" then .error "unexpected end of JSON input" else lookupOr docs s "invalid JSON"
  unmarshalRealm_empty := by intro r; simp
  unmarshalControllerBinding_empty := by intro c; simp

/-- A bindings table held as a list of rows: `Save` replaces the row with the
same id or appends, and no statement fails but `First` on a missing id. A row
saved with a blank id is always inserted: its `id` column is left out of the
INSERT and stays NULL, which no `id = ?` matches, so the list keeps it with the
blank id and no lookup or delete by id reaches it; the key written back into
the struct is the number of the new row, as a one-character string. -/
def tableStore : Store (List gormColumns) where
  Save := fun row db =>
    if row.DBid = "" then (db ++ [row], none)
    else if db.any (fun r => decide (r.DBid = row.DBid)) then
      (db.map (fun r => if r.DBid = row.DBid then row else r), none)
    else (db ++ [row], none)
  First := fun id db =>
    if id = "" then .error "record not found"
    else
      match db.find? (fun r => decide (r.DBid = id)) with
      | some r => .ok r
      | none => .error "record not found"
  Delete := fun id db =>
    if id = "" then (db, none) else (db.filter (fun r => decide (r.DBid ≠ id)), none)
  SavedKey := fun row db =>
    if row.DBid = "" then String.mk [Char.ofNat (db.length + 1)] else row.DBid

/-! ## Concrete inputs -/

/-- The instant 2023-11-14T22:13:20Z, in nanoseconds. -/
def demoNow : Time := 1700000000000000000

/-- A token signed by `K1`, issued 100 s ago with a TTL of 200 s, without
certificate, holding one mandate signed by `K2` that came into force an hour
ago and lapses in an hour. -/
def engineInForce : Engine String DemoJWS :=
  demoEngine
    [("token", ⟨["K1"], "tokenPayload", "K1"⟩), ("mandate", ⟨["K2"], "mandatePayload", "K2"⟩)]
    [("tokenPayload", some ⟨demoNow - 100 * Second, 200, "", ["mandate"]⟩)]
    [("mandatePayload", some ⟨"admin", demoNow - 3600 * Second, demoNow + 3600 * Second⟩)]
    []

/-- The token of `engineInForce` with a mandate that comes into force in an
hour and lapses in two (under `"early"`), and with one that came into force
two hours ago and lapsed an hour ago (under `"late"`). -/
def engineWindows : Engine String DemoJWS :=
  demoEngine
    [("early", ⟨["K1"], "earlyPayload", "K1"⟩), ("late", ⟨["K1"], "latePayload", "K1"⟩),
     ("notYet", ⟨["K2"], "notYetPayload", "K2"⟩), ("lapsed", ⟨["K2"], "lapsedPayload", "K2"⟩)]
    [("earlyPayload", some ⟨demoNow - 100 * Second, 200, "", ["notYet"]⟩),
     ("latePayload", some ⟨demoNow - 100 * Second, 200, "", ["lapsed"]⟩)]
    [("notYetPayload", some ⟨"admin", demoNow + 3600 * Second, demoNow + 7200 * Second⟩),
     ("lapsedPayload", some ⟨"admin", demoNow - 7200 * Second, demoNow - 3600 * Second⟩)]
    []

/-- A token signed by `K1`, issued 100 s ago with a TTL of 9223372037 s
(under `"long"`), of 50 s (under `"short"`) and of 200 s (under `"fine"`),
without certificate and without mandates. -/
def engineTTL : Engine String DemoJWS :=
  demoEngine
    [("long", ⟨["K1"], "longPayload", "K1"⟩), ("short", ⟨["K1"], "shortPayload", "K1"⟩),
     ("fine", ⟨["K1"], "finePayload", "K1"⟩)]
    [("longPayload", some ⟨demoNow - 100 * Second, 9223372037, "", []⟩),
     ("shortPayload", some ⟨demoNow - 100 * Second, 50, "", []⟩),
     ("finePayload", some ⟨demoNow - 100 * Second, 200, "", []⟩)]
    [] []

/-- A token signed by `K1` with two mandates: `"forged"` names `K2` in its
signature header but its signature does not verify under `K2`; `"foreign"` is
signed by `K3`. -/
def engineForged : Engine String DemoJWS :=
  demoEngine
    [("token", ⟨["K1"], "tokenPayload", "K1"⟩), ("forged", ⟨["K2"], "forgedPayload", "K9"⟩),
     ("foreign", ⟨["K3"], "foreignPayload", "K3"⟩)]
    [("tokenPayload", some ⟨demoNow - 100 * Second, 200, "", ["forged", "foreign"]⟩)]
    [("forgedPayload", some ⟨"admin", demoNow, demoNow⟩),
     ("foreignPayload", some ⟨"admin", demoNow, demoNow⟩)]
    []

/-- A token signed by `K1` with two mandates: `"granted"`, signed by `K2` and
valid at exactly `demoNow`, then `"foreign"`, signed by `K3`. -/
def engineForeign : Engine String DemoJWS :=
  demoEngine
    [("token", ⟨["K1"], "tokenPayload", "K1"⟩), ("granted", ⟨["K2"], "grantedPayload", "K2"⟩),
     ("foreign", ⟨["K3"], "foreignPayload", "K3"⟩)]
    [("tokenPayload", some ⟨demoNow - 100 * Second, 200, "", ["granted", "foreign"]⟩)]
    [("grantedPayload", some ⟨"admin", demoNow, demoNow⟩),
     ("foreignPayload", some ⟨"admin", demoNow, demoNow⟩)]
    []

/-- Three tokens signed by `K1` without mandates: `"plain"` carries no
certificate, `"delegated"` carries the certificate `"chain"`, which validates
with issuer `KI`, and `"broken"` carries a certificate that does not
validate. -/
def engineCert : Engine String DemoJWS :=
  demoEngine
    [("plain", ⟨["K1"], "plainPayload", "K1"⟩),
     ("delegated", ⟨["K1"], "delegatedPayload", "K1"⟩),
     ("broken", ⟨["K1"], "brokenPayload", "K1"⟩)]
    [("plainPayload", some ⟨demoNow - 100 * Second, 200, "", []⟩),
     ("delegatedPayload", some ⟨demoNow - 100 * Second, 200, "chain", []⟩),
     ("brokenPayload", some ⟨demoNow - 100 * Second, 200, "no chain", []⟩)]
    []
    [("chain", "KI")]

/-- A binding bound to the realm `example.com` with realm key `R` and the one
admin role `admin`. -/
def demoBound : Binding String where
  ID := "b1"
  Secret := "s3cret"
  PublicKey := none
  Descriptor := { AdminUI := "", Status := "", Key := none }
  Certificate := "abc"
  Mandates := ["m1"]
  AdminRoles := ["admin"]
  Realm := some { Name := "example.com", PublicKey := "R" }
  Status := ""
  BindEndpoint := ""
  ControllerBinding := some
    { AdminRoles := ["admin"], ControllerCertificate := "abc", Mandates := ["m1"],
      RealmDescriptor := some { Name := "example.com", PublicKey := "R" } }

/-- A registry lookup that knows the binding `b1` only. -/
def demoGet (id : String) : Except String (Binding String) :=
  if id = "b1" then .ok demoBound else .error "Binding not found"

/-- A mandate for `role`, valid at `demoNow`, presented as signed by `signer`. -/
def demoMandate (signer role : String) : AuthenticatedMandate String :=
  { Signer := signer, Mandate := { Role := role, ValidFrom := demoNow, ValidUntil := demoNow } }

/-- A handler that answers with the id of the binding it is handed. -/
def demoAuthenticatedHandler (r : standardAuthenticatedRequestWithBinding String) : String :=
  r.binding.ID

/-- A handler that answers with the id of the binding it is handed. -/
def demoActionHandler (r : standardActionRequestWithBinding String) : String :=
  r.binding.ID

/-- Action parameters that name the binding `b1`. -/
def demoParams (k : String) : Option String :=
  if k = "binding" then some "b1" else none

/-- The controller-binding document of the repository's bind test, with a
realm key. -/
def demoDoc : ControllerBinding String where
  AdminRoles := ["admin"]
  ControllerCertificate := "abc"
  Mandates := ["def"]
  RealmDescriptor := some { Name := "example.com", PublicKey := "R" }

/-- The controller-binding document of the repository's unbind test: one
mandate and nothing else. -/
def demoSparseDoc : ControllerBinding String where
  AdminRoles := []
  ControllerCertificate := ""
  Mandates := ["def"]
  RealmDescriptor := none

/-- A controller-binding document with one admin role whose name holds a
comma and a mandate list holding the empty string. -/
def demoCommaDoc : ControllerBinding String where
  AdminRoles := ["ops,admin"]
  ControllerCertificate := "abc"
  Mandates := [""]
  RealmDescriptor := some { Name := "example.com", PublicKey := "R" }

/-- An in-memory binding `b1` as `newMockBinding` makes it, with the given
hooks and the given bound state. -/
def demoMock (binding : Option (ControllerBinding String))
    (postBindFunc postUnbindFunc : Option (mockFields String → mockFields String)) :
    mockBinding String where
  id := "b1"
  secret := "s3cret"
  publicKey := none
  descriptor := { AdminUI := "", Status := "", Key := none }
  binding := binding
  status := ""
  bindEndpoint := ""
  postBindFunc := postBindFunc
  postUnbindFunc := postUnbindFunc

/-- The hook `func(b Binding) { b.SetStatus(v) }` of the repository's tests,
on an in-memory binding. -/
def hookSetStatus (v : String) (s : mockFields String) : mockFields String :=
  (mockBinding.SetStatus { tomockFields := s, postBindFunc := none, postUnbindFunc := none }
    v).1.tomockFields

/-- The hook `func(b Binding) { b.Unbind() }` on an in-memory binding without
post-unbind hook. -/
def hookUnbind (s : mockFields String) : mockFields String :=
  (mockBinding.Unbind { tomockFields := s, postBindFunc := none, postUnbindFunc := none }
    ).1.tomockFields

/-- The hook `func(b Binding) { b.Bind(doc) }` on an in-memory binding without
post-bind hook. -/
def hookBind (doc : ControllerBinding String) (s : mockFields String) : mockFields String :=
  (mockBinding.Bind { tomockFields := s, postBindFunc := none, postUnbindFunc := none }
    (some doc)).1.tomockFields

/-- A relational binding `b1` as `newGormBinding` makes it, without hooks. -/
def demoGorm : gormBinding (List gormColumns) where
  DBid := "b1"
  DBsecret := "s3cret"
  DBpublicKey := ""
  DBdescriptor := ""
  DBbinding := ""
  DBcertificate := ""
  DBmandates := ""
  DBadminRoles := ""
  DBrealm := ""
  DBstatus := ""
  DBbindEndpoint := ""
  postBindFunc := none
  postUnbindFunc := none

/-- A JSON codec that knows the realm of the demonstration documents and the
documents themselves. -/
def demoJSON : Codec String :=
  demoCodec
    [("null", none), ("realm.json", some { Name := "example.com", PublicKey := "R" })]
    [("null", none), ("doc.json", some demoDoc), ("sparse.json", some demoSparseDoc),
     ("comma.json", some demoCommaDoc)]

/-- The relational binding `b1` bound with `demoDoc`, without hooks. -/
def demoGormBound : gormBinding (List gormColumns) where
  DBid := "b1"
  DBsecret := "s3cret"
  DBpublicKey := ""
  DBdescriptor := ""
  DBbinding := "doc.json"
  DBcertificate := "abc"
  DBmandates := "def"
  DBadminRoles := "admin"
  DBrealm := "realm.json"
  DBstatus := ""
  DBbindEndpoint := ""
  postBindFunc := none
  postUnbindFunc := none

/-! ## The in-memory registry (mock.go) -/

/-- The function `newMockBinding`; `secret` is the string
`crypto.GenerateRandomString(42)` returns during the call (its error is
dropped). -/
def newMockBinding {Key : Type} (id secret : String)
    (postBindFunc postUnbindFunc : Option (mockFields Key → mockFields Key)) :
    mockBinding Key where
  id := id
  secret := secret
  publicKey := none
  descriptor := { AdminUI := "", Status := "", Key := none }
  binding := none
  status := ""
  bindEndpoint := ""
  postBindFunc := postBindFunc
  postUnbindFunc := postUnbindFunc

/-- The struct `mockBindingService`; the Go map `bindings` is a function
from ids into `Option`. -/
structure mockBindingService (Key : Type) where
  bindings : String → Option (mockBinding Key)
  postBindFunc : Option (mockFields Key → mockFields Key)
  postUnbindFunc : Option (mockFields Key → mockFields Key)

/-- The function `NewMockBindingService`. -/
def NewMockBindingService {Key : Type} : mockBindingService Key where
  bindings := fun _ => none
  postBindFunc := none
  postUnbindFunc := none

namespace mockBindingService

variable {Key : Type}

/-- `mockBindingService.New`: the registry afterwards, the returned Binding
and the returned error. -/
def New (s : mockBindingService Key) (id secret : String) :
    mockBindingService Key × mockBinding Key × Option String :=
  match s.bindings id with
  | some b => (s, b, some "Binding already exists")
  | none =>
    let b := newMockBinding id secret s.postBindFunc s.postUnbindFunc
    ({ s with bindings := fun k => if k = id then some b else s.bindings k }, b, none)

/-- `mockBindingService.Get`. -/
def Get (s : mockBindingService Key) (id : String) : Except String (mockBinding Key) :=
  match s.bindings id with
  | none => .error "Binding not found"
  | some b => .ok b

/-- `mockBindingService.Delete`. -/
def Delete (s : mockBindingService Key) (id : String) :
    mockBindingService Key × Option String :=
  match s.bindings id with
  | none => (s, some "Binding not found")
  | some _ => ({ s with bindings := fun k => if k = id then none else s.bindings k }, none)

/-- `mockBindingService.SetPostBind`. -/
def SetPostBind (s : mockBindingService Key) (f : Option (mockFields Key → mockFields Key)) :
    mockBindingService Key :=
  { s with postBindFunc := f }

/-- `mockBindingService.SetPostUnbind`. -/
def SetPostUnbind (s : mockBindingService Key) (f : Option (mockFields Key → mockFields Key)) :
    mockBindingService Key :=
  { s with postUnbindFunc := f }

end mockBindingService

/-! ## The relational registry (gorm/service.go) -/

/-- The error `gorm.ErrRecordNotFound`. -/
def ErrRecordNotFound : String := "record not found"

/-- The contract of a bindings table that is in working order: a statement
does not fail, `First` returns the row last saved under a non-blank id,
`db.Save` leaves a non-blank id in the struct as it is, and `First` reports
`gorm.ErrRecordNotFound` for an id that has been deleted. Nothing is promised
of a row saved with a blank id: the database generates its key. -/
structure Store.Working {σ : Type} (store : Store σ) : Prop where
  save_ok : ∀ row db, (store.Save row db).2 = none
  first_save : ∀ row db, row.DBid ≠ "" →
    store.First row.DBid (store.Save row db).1 = .ok row
  saved_key : ∀ row db, row.DBid ≠ "" → store.SavedKey row db = row.DBid
  delete_ok : ∀ id db, (store.Delete id db).2 = none
  first_delete : ∀ id db, store.First id (store.Delete id db).1 = .error ErrRecordNotFound

/-- The function `newGormBinding`; `secret` is the string
`crypto.GenerateRandomString(42)` returns during the call. -/
def newGormBinding {σ : Type} (id secret : String)
    (postBindFunc postUnbindFunc : Option (gormColumns × σ → gormColumns × σ)) :
    gormBinding σ where
  DBid := id
  DBsecret := secret
  DBpublicKey := ""
  DBdescriptor := ""
  DBbinding := ""
  DBcertificate := ""
  DBmandates := ""
  DBadminRoles := ""
  DBrealm := ""
  DBstatus := ""
  DBbindEndpoint := ""
  postBindFunc := postBindFunc
  postUnbindFunc := postUnbindFunc

/-- The struct `gormBindingService`; the database behind its `db` pointer is
passed to each method. -/
structure gormBindingService (σ : Type) where
  postBindFunc : Option (gormColumns × σ → gormColumns × σ)
  postUnbindFunc : Option (gormColumns × σ → gormColumns × σ)

/-- The constructor `New(db)` of package gorm. -/
def NewGormBindingService {σ : Type} : gormBindingService σ where
  postBindFunc := none
  postUnbindFunc := none

namespace gormBindingService

variable {σ : Type}

/-- `gormBindingService.SetPostBind`. -/
def SetPostBind (s : gormBindingService σ) (f : Option (gormColumns × σ → gormColumns × σ)) :
    gormBindingService σ :=
  { s with postBindFunc := f }

/-- `gormBindingService.SetPostUnbind`. -/
def SetPostUnbind (s : gormBindingService σ) (f : Option (gormColumns × σ → gormColumns × σ)) :
    gormBindingService σ :=
  { s with postUnbindFunc := f }

/-- `gormBindingService.Get`: the Binding `b := &gormBinding{}` filled by
`First`, and the error of `First`. Only the `db` field is set on it after the
load. -/
def Get (store : Store σ) (_s : gormBindingService σ) (id : String) (db : σ) :
    gormBinding σ × Option String :=
  match store.First id db with
  | .ok row => ({ row with postBindFunc := none, postUnbindFunc := none }, none)
  | .error err => (newGormBinding "" "" none none, some err)

/-- `gormBindingService.New`: the returned Binding, the returned error and the
database afterwards. `g.db.Save(b)` is handed the pointer `b` that is then
returned, so the Binding carries the `id` that the statement left in it. -/
def New (store : Store σ) (s : gormBindingService σ) (id secret : String) (db : σ) :
    gormBinding σ × Option String × σ :=
  match Get store s id db with
  | (b, none) => (b, some "Binding already exists", db)
  | (_, some _) =>
    let b := newGormBinding id secret s.postBindFunc s.postUnbindFunc
    ({ b with DBid := store.SavedKey b.togormColumns db },
      (store.Save b.togormColumns db).2, (store.Save b.togormColumns db).1)

/-- `gormBindingService.Delete`. -/
def Delete (store : Store σ) (s : gormBindingService σ) (id : String) (db : σ) :
    σ × Option String :=
  match Get store s id db with
  | (_, some err) => (db, some err)
  | (_, none) => store.Delete id db

end gormBindingService

/-! ## Keys and descriptors of a binding -/

/-- A Go `[]byte`. -/
abbrev Bytes := List Nat

/-- The key operations `GenerateKey` calls, over a private-key type `Priv`, a
stored-key type `Stored` and a vault state `ν`: `crypto.NewKey()` (`NewKey` is
what the call returns this time), `crypto.NewPublicKey(key)`,
`(&keys.StoredKey{ID: id}).Encrypt(key, kek)` (the stored key it leaves, or its
error) and `svc.Save(skey)` on the key vault. -/
structure KeyEngine (Key Priv Stored ν : Type) where
  NewKey : Except String Priv
  NewPublicKey : Priv → Except String Key
  Encrypt : String → Priv → Bytes → Except String Stored
  Save : Stored → ν → ν × Option String

/-- The JSON calls of gorm/binding.go on the public key and the descriptor
columns: `json.Marshal(key)`, `crypto.UnmarshalKey(bytes)` (the returned key
pointer and error), `json.Marshal(desc)`, and the descriptor that
`json.Unmarshal(bytes, &desc)` leaves in an empty `desc`. `crypto.UnmarshalKey`
returns a nil key for the empty input, as the test `Not_generated` of the
repository expects of a fresh gorm binding. -/
structure RowCodec (Key : Type) where
  marshalKey : Option Key → Except String String
  UnmarshalKey : String → Option Key × Option String
  marshalDescriptor : ControllerDescriptor Key → Except String String
  unmarshalDescriptor : String → ControllerDescriptor Key
  UnmarshalKey_empty : (UnmarshalKey "").1 = none

namespace mockBinding

variable {Key : Type}

/-- `mockBinding.GenerateKey`: the binding and key vault afterwards and the
returned error. -/
def GenerateKey {Priv Stored ν : Type} (k : KeyEngine Key Priv Stored ν) (m : mockBinding Key)
    (kek : Bytes) (vault : ν) : (mockBinding Key × ν) × Option String :=
  match k.NewKey with
  | .error err => ((m, vault), some err)
  | .ok key =>
    match k.NewPublicKey key with
    | .error err => ((m, vault), some err)
    | .ok pk =>
      match k.Encrypt m.id key kek with
      | .error err => ((m, vault), some err)
      | .ok skey =>
        match k.Save skey vault with
        | (vault1, some err) => ((m, vault1), some err)
        | (vault1, none) => (({ m with publicKey := some pk }, vault1), none)

def ID (m : mockBinding Key) : String := m.id

def Secret (m : mockBinding Key) : String := m.secret

def PublicKey (m : mockBinding Key) : Option Key := m.publicKey

def Descriptor (m : mockBinding Key) : ControllerDescriptor Key := m.descriptor

def Status (m : mockBinding Key) : String := m.status

def BindEndpoint (m : mockBinding Key) : String := m.bindEndpoint

end mockBinding

namespace gormBinding

variable {Key σ : Type}

/-- `gormBinding.setPublicKey`. -/
def setPublicKey (rc : RowCodec Key) (store : Store σ) (g : gormBinding σ) (key : Option Key)
    (db : σ) : (gormBinding σ × σ) × Option String :=
  match rc.marshalKey key with
  | .error err => ((g, db), some err)
  | .ok bytes =>
    let g1 : gormBinding σ := { g with DBpublicKey := bytes }
    ((g1, (g1.save store db).1), (g1.save store db).2)

/-- `gormBinding.GenerateKey`: the binding, database and key vault afterwards
and the returned error. -/
def GenerateKey {Priv Stored ν : Type} (k : KeyEngine Key Priv Stored ν) (rc : RowCodec Key)
    (store : Store σ) (g : gormBinding σ) (kek : Bytes) (db : σ) (vault : ν) :
    (gormBinding σ × σ × ν) × Option String :=
  match k.NewKey with
  | .error err => ((g, db, vault), some err)
  | .ok key =>
    match k.NewPublicKey key with
    | .error err => ((g, db, vault), some err)
    | .ok pk =>
      match k.Encrypt g.DBid key kek with
      | .error err => ((g, db, vault), some err)
      | .ok skey =>
        match k.Save skey vault with
        | (vault1, some err) => ((g, db, vault1), some err)
        | (vault1, none) =>
          match g.setPublicKey rc store (some pk) db with
          | ((g1, db1), some err) => ((g1, db1, vault1), some err)
          | ((g1, db1), none) => ((g1, db1, (k.Save skey vault1).1), (k.Save skey vault1).2)

def ID (g : gormBinding σ) : String := g.DBid

def Secret (g : gormBinding σ) : String := g.DBsecret

/-- `gormBinding.PublicKey`: the key `crypto.UnmarshalKey` returns, its error
dropped. -/
def PublicKey (rc : RowCodec Key) (g : gormBinding σ) : Option Key :=
  (rc.UnmarshalKey g.DBpublicKey).1

def Descriptor (rc : RowCodec Key) (g : gormBinding σ) : ControllerDescriptor Key :=
  rc.unmarshalDescriptor g.DBdescriptor

def Status (g : gormBinding σ) : String := g.DBstatus

def BindEndpoint (g : gormBinding σ) : String := g.DBbindEndpoint

end gormBinding

/-! ## The binding callback (handlers/handlers.go) -/

/-- Go `strings.HasPrefix` on character lists. -/
def startsWithChars : List Char → List Char → Bool
  | [], _ => true
  | _ :: _, [] => false
  | a :: as, b :: bs => if a = b then startsWithChars as bs else false

/-- Go `strings.Contains` on character lists. -/
def containsChars (substr : List Char) : List Char → Bool
  | [] => startsWithChars substr []
  | c :: cs => if startsWithChars substr (c :: cs) then true else containsChars substr cs

/-- Go `strings.Contains(s, substr)`. -/
def stringsContains (s substr : String) : Bool := containsChars substr.data s.data

/-- What `BindingCallback` reads of its request: `req.URL().Query().Get("secret")`
and the result of `req.Body()`. -/
structure CallbackRequest where
  secretQuery : String
  Body : Except String String

/-- The responses of `BindingCallback`: `httphandler.NewErrorResponse` and
`httphandler.NewEmptyResponse`. -/
inductive CallbackResponse where
  | errorResponse (status : Nat) (msg : String)
  | emptyResponse (status : Nat)
  deriving DecidableEq, Repr

def StatusCreated : Nat := 201

/-- Lines 42-79 of `BindingCallback`, up to the call of `Bind`: the response it
returns early with, or the payload it goes on to hand to `Bind` (a nil pointer
is `none`). `secret` is `req.Binding().Secret()`; the payload is decoded with
`json.Unmarshal` (`codec.unmarshalControllerBinding`). Past a successful
`Verify` the signer is the key of the signature header the signature verified
under, so the test `signer != nil` is the test of having taken the signed
branch. -/
def callbackPayload {Key JWS : Type} (e : Engine Key JWS) (codec : Codec Key) (secret : String)
    (req : CallbackRequest) : Run (Except CallbackResponse (Option (ControllerBinding Key))) :=
  if req.secretQuery ≠ secret then
    .returned (.error (.errorResponse StatusForbidden "Wrong secret"))
  else
    match req.Body with
    | .error err =>
      .returned (.error (.errorResponse StatusInternalServerError
        ("failed to read body: " ++ err)))
    | .ok body =>
      if stringsContains body "\"payload\"" then
        match e.UnmarshalSignature body with
        | .error err =>
          .returned (.error (.errorResponse StatusInternalServerError
            ("failed to unmarshal JWS: " ++ err)))
        | .ok jws =>
          match e.Signatures jws with
          | [] => .returned (.error (.errorResponse StatusBadRequest "No signature on JWS"))
          | signer :: _ =>
            match e.Verify jws signer with
            | .error err =>
              .returned (.error (.errorResponse StatusBadRequest
                ("failed to verify signature: " ++ err)))
            | .ok verified =>
              match codec.unmarshalControllerBinding verified with
              | .error err =>
                .returned (.error (.errorResponse StatusInternalServerError
                  ("failed to unmarshal payload: " ++ err)))
              | .ok none => .panicked
              | .ok (some payload) =>
                match payload.RealmDescriptor with
                | none => .panicked
                | some realm =>
                  if e.Thumbprint signer ≠ e.Thumbprint realm.PublicKey then
                    .returned (.error (.errorResponse StatusBadRequest
                      "Payload not signed by realm"))
                  else .returned (.ok (some payload))
      else
        match codec.unmarshalControllerBinding body with
        | .error err =>
          .returned (.error (.errorResponse StatusInternalServerError
            ("failed to unmarshal payload: " ++ err)))
        | .ok payload => .returned (.ok payload)

/-- The handler `BindingCallback` on a Binding in state `b`, whose `Secret()`
and `Bind` are `secret` and `bind`: the state of the Binding afterwards and the
response. -/
def BindingCallback {Key JWS β : Type} (e : Engine Key JWS) (codec : Codec Key)
    (secret : β → String) (bind : β → Option (ControllerBinding Key) → Run (β × Option String))
    (req : CallbackRequest) (b : β) : Run (β × CallbackResponse) :=
  match callbackPayload e codec (secret b) req with
  | .panicked => .panicked
  | .returned (.error resp) => .returned (b, resp)
  | .returned (.ok payload) =>
    match bind b payload with
    | .panicked => .panicked
    | .returned (b1, some err) =>
      .returned (b1, .errorResponse StatusInternalServerError ("failed to bind: " ++ err))
    | .returned (b1, none) => .returned (b1, .emptyResponse StatusCreated)

/-- A fresh in-memory registry. -/
def demoEmptyMock : mockBindingService String := NewMockBindingService

/-- A fresh gorm registry, over a table held as a list of rows. -/
def demoEmptyGorm : gormBindingService (List gormColumns) := NewGormBindingService

/-- A fresh in-memory registry in which the binding `b1` has been created with
the secret `s3cret`. -/
def demoMockService : mockBindingService String :=
  (demoEmptyMock.New "b1" "s3cret").1

/-- The hook `func(b Binding) { b.SetStatus(v) }` on an in-memory binding. -/
def mockHookSetStatus {Key : Type} (v : String) (s : mockFields Key) : mockFields Key :=
  (mockBinding.SetStatus { tomockFields := s, postBindFunc := none, postUnbindFunc := none }
    v).1.tomockFields

/-- The hook `func(b Binding) { b.SetStatus(v) }` on a relational binding: it
sets the status column and saves the row. -/
def gormHookSetStatus {σ : Type} (store : Store σ) (v : String) (p : gormColumns × σ) :
    gormColumns × σ :=
  ((gormBinding.SetStatus store
      { togormColumns := p.1, postBindFunc := none, postUnbindFunc := none } v p.2).1.1.togormColumns,
   (gormBinding.SetStatus store
      { togormColumns := p.1, postBindFunc := none, postUnbindFunc := none } v p.2).1.2)

/-- The columns of a relational binding once `Bind(doc)` has written the bound
state, `realmBytes` and `docBytes` being the JSON of the realm and of the
document. -/
def gormColumns.written {Key : Type} (c : gormColumns) (doc : ControllerBinding Key)
    (realmBytes docBytes : String) : gormColumns :=
  { c with DBcertificate := doc.ControllerCertificate,
           DBmandates := stringsJoin doc.Mandates ",",
           DBadminRoles := stringsJoin doc.AdminRoles ",",
           DBrealm := realmBytes, DBbinding := docBytes }

/-- The columns of a relational binding once `Unbind` has cleared the bound
state. -/
def gormColumns.cleared (c : gormColumns) : gormColumns :=
  { c with DBcertificate := "", DBmandates := "", DBadminRoles := "", DBrealm := "",
           DBbinding := "" }

/-- A gorm registry on which the hook of the repository's tests,
`func(b Binding) { b.SetStatus("true") }`, is registered as post-bind hook. -/
def demoHookedGorm : gormBindingService (List gormColumns) :=
  demoEmptyGorm.SetPostBind (some (gormHookSetStatus tableStore "true"))

/-- An in-memory registry on which the hook of the repository's tests,
`func(b Binding) { b.SetStatus("true") }`, is registered as post-bind hook. -/
def demoHookedMock : mockBindingService String :=
  demoEmptyMock.SetPostBind (some (mockHookSetStatus "true"))

/-- The relational binding `b1` of `demoHookedGorm` after `Bind(demoDoc)`: the
columns written from `demoDoc` and the status the hook has set. -/
def demoHookedGormBound : gormBinding (List gormColumns) where
  DBid := "b1"
  DBsecret := "s3cret"
  DBpublicKey := ""
  DBdescriptor := ""
  DBbinding := "doc.json"
  DBcertificate := "abc"
  DBmandates := "def"
  DBadminRoles := "admin"
  DBrealm := "realm.json"
  DBstatus := "true"
  DBbindEndpoint := ""
  postBindFunc := some (gormHookSetStatus tableStore "true")
  postUnbindFunc := none

/-- The hook `func(b Binding) { stored, _ := svc.Get(b.ID());
b.SetStatus(stored.Certificate()) }` on a relational binding: it records as
status the certificate the bindings table holds for the binding at the moment
the hook runs. -/
def gormHookRecordStored (p : gormColumns × List gormColumns) :
    gormColumns × List gormColumns :=
  gormHookSetStatus tableStore (demoEmptyGorm.Get tableStore p.1.DBid p.2).1.Certificate p

/-- The relational binding `b1` bound with `demoDoc`, with
`gormHookRecordStored` as post-unbind hook. -/
def demoGormObserved : gormBinding (List gormColumns) :=
  { demoGormBound with postUnbindFunc := some gormHookRecordStored }

/-- An in-memory registry on which `func(b Binding) { b.SetStatus("f1") }` was
registered as post-bind and post-unbind hook, the binding `b1` was then
created, and `func(b Binding) { b.SetStatus("f2") }` was then registered in its
place. -/
def demoRehookedMock : mockBindingService String :=
  ((((demoEmptyMock.SetPostBind (some (mockHookSetStatus "f1"))).SetPostUnbind
      (some (mockHookSetStatus "f1"))).New "b1" "s3cret").1.SetPostBind
      (some (mockHookSetStatus "f2"))).SetPostUnbind (some (mockHookSetStatus "f2"))

/-- Key generation or the encryption of the private key fails: `crypto.NewKey`
fails, or `crypto.NewPublicKey` fails on the generated key, or the `Encrypt` of
the stored key under `kek` fails. -/
def KeyEngine.GenerationFails {Key Priv Stored ν : Type} (k : KeyEngine Key Priv Stored ν)
    (id : String) (kek : Bytes) : Prop :=
  (∃ err, k.NewKey = .error err) ∨
  (∃ key err, k.NewKey = .ok key ∧ k.NewPublicKey key = .error err) ∨
  (∃ key pk err, k.NewKey = .ok key ∧ k.NewPublicKey key = .ok pk ∧
    k.Encrypt id key kek = .error err)

/-- A key engine for evaluation: the private key generated is `7`, its public
key is `PK`, `Encrypt` wants a key-encryption-key of 32 bytes, and the vault is
the list of the stored keys. -/
def demoKeyEngine : KeyEngine String Nat (String × Nat) (List (String × Nat)) where
  NewKey := .ok 7
  NewPublicKey := fun _ => .ok "PK"
  Encrypt := fun id key kek =>
    if kek.length = 32 then .ok (id, key) else .error "invalid key size"
  Save := fun skey vault => (vault ++ [skey], none)

/-- The key-encryption-key `[]byte("broken")` of the repository's test. -/
def demoBrokenKek : Bytes := [98, 114, 111, 107, 101, 110]

/-- A codec for the key and descriptor columns: a key is stored as its name,
a descriptor as its admin URL. -/
def demoRowCodec : RowCodec String where
  marshalKey := fun k =>
    match k with
    | some key => .ok key
    | none => .ok "null"
  UnmarshalKey := fun s =>
    if s = "" then (none, some "unexpected end of JSON input")
    else if s = "null" then (none, none) else (some s, none)
  marshalDescriptor := fun d => .ok d.AdminUI
  unmarshalDescriptor := fun s => { AdminUI := s, Status := "", Key := none }
  UnmarshalKey_empty := by simp

/-- `mockBinding.Bind` as a call that returns (it never crashes). -/
def mockBinding.bindRun {Key : Type} (m : mockBinding Key)
    (c : Option (Controller.ControllerBinding Key)) :
    Run (mockBinding Key × Option String) :=
  .returned (m.Bind c)

/-- `gormBinding.Bind` on a binding together with its database. -/
def gormBinding.bindRun {Key σ : Type} (codec : Codec Key) (store : Store σ)
    (p : gormBinding σ × σ) (c : Option (Controller.ControllerBinding Key)) :
    Run ((gormBinding σ × σ) × Option String) :=
  p.1.Bind codec store c p.2

/-- An engine that knows one signed envelope: the body `"payload" signed by R`
carries `doc.json` and is signed by the realm key `R`. -/
def engineCallback : Engine String DemoJWS :=
  demoEngine [("\"payload\" signed by R", ⟨["R"], "doc.json", "R"⟩)] [] [] []

/-! ## Bindings of the registries behind the interface -/

/-- The relational binding as seen through the interface `Binding`. -/
def gormBinding.asBinding {Key σ : Type} (codec : Codec Key) (rc : RowCodec Key)
    (g : gormBinding σ) : Binding Key where
  ID := g.ID
  Secret := g.Secret
  PublicKey := g.PublicKey rc
  Descriptor := g.Descriptor rc
  Certificate := g.Certificate
  Mandates := g.Mandates
  AdminRoles := g.AdminRoles
  Realm := g.Realm codec
  Status := g.Status
  BindEndpoint := g.BindEndpoint
  ControllerBinding := g.ControllerBinding codec

/-- `bm.Get` as the wrappers call it on the in-memory registry. -/
def mockBindingService.GetBinding {Key : Type} (s : mockBindingService Key) (id : String) :
    Except String (Binding Key) :=
  match s.Get id with
  | .error err => .error err
  | .ok b => .ok b.asBinding

/-- `bm.Get` as the wrappers call it on the gorm registry over the database
`db`. -/
def gormBindingService.GetBinding {Key σ : Type} (codec : Codec Key) (rc : RowCodec Key)
    (store : Store σ) (s : gormBindingService σ) (db : σ) (id : String) :
    Except String (Binding Key) :=
  match s.Get store id db with
  | (b, none) => .ok (b.asBinding codec rc)
  | (_, some err) => .error err

/-- The relational binding `b1` after `Bind(demoCommaDoc)`. -/
def demoGormCommaBound : gormBinding (List gormColumns) :=
  { demoGorm with
    togormColumns := demoGorm.togormColumns.written demoCommaDoc "realm.json" "comma.json" }

/-! # Properties -/

/-! ## The verifier: general facts -/

theorem verify_of_passes {Key JWS : Type} (e : Engine Key JWS) (now : Time) (token : String)
    (mandateSigner : Key) (keyLevel : Int) (signer0 clientKey : Key) (mt : MandateToken)
    (h : PassesTokenChecks e now token keyLevel signer0 clientKey mt) :
    VerifyMandateToken e now token mandateSigner keyLevel
      = mandateLoop e mandateSigner now clientKey mt.Mandates [] := by
  obtain ⟨tj, others, payload, hU, hS, hV, hD, hT, hC⟩ := h
  rcases hC with ⟨hc, rfl⟩ | ⟨hc, hX⟩
  · simp [VerifyMandateToken, hU, hS, hV, hD, hT, hc]
  · simp [VerifyMandateToken, hU, hS, hV, hD, hT, hc, hX]

theorem checkMandate_of_signed {Key JWS : Type} (e : Engine Key JWS) (mandateSigner : Key)
    (now : Time) (s : String) (m : Mandate) (h : SignedMandate e mandateSigner s m) :
    checkMandate e mandateSigner now s
      = if m.ValidFrom.Before now then .returned (.error .mandateNotYetValid)
        else if m.ValidUntil.After now then .returned (.error .mandateExpired)
        else .returned (.ok m) := by
  obtain ⟨mj, sig0, others, payload, hU, hS, hT, hV, hD⟩ := h
  simp [checkMandate, hU, hS, hT, hV, hD]

theorem checkMandate_of_wrongSigner {Key JWS : Type} (e : Engine Key JWS) (mandateSigner : Key)
    (now : Time) (s : String) (h : WrongSigner e mandateSigner s) :
    checkMandate e mandateSigner now s = .returned (.error .wrongMandateSigner) := by
  obtain ⟨mj, sig0, others, hU, hS, hT⟩ := h
  simp [checkMandate, hU, hS, hT]

theorem mandateLoop_accepted {Key JWS : Type} (e : Engine Key JWS) (mandateSigner : Key)
    (now : Time) (clientKey : Key) (pre : List String) (ms : List Mandate)
    (h : List.Forall₂ (fun s m => checkMandate e mandateSigner now s = .returned (.ok m)) pre ms)
    (rest : List String) (acc : List Mandate) :
    mandateLoop e mandateSigner now clientKey (pre ++ rest) acc
      = mandateLoop e mandateSigner now clientKey rest (acc ++ ms) := by
  induction h generalizing acc with
  | nil => simp
  | cons hhead _ ih => simp [mandateLoop, hhead, ih]

/-! ## C1: a mandate in force is rejected -/

/-- C1 (the code departs from it). For every non-expired token signed by `K1`
without certificate that holds exactly one mandate validly signed by `K2`, and
every instant `now` strictly after the mandate's `validFrom` (so in particular
whenever `validFrom < now ≤ validUntil`), `VerifyMandateToken` expecting signer
`K2` does not return the mandate and `K1`: it fails with "Mandate not yet
valid", with no mandates and no client key. -/
theorem verify_rejects_mandate_in_force {Key JWS : Type} (e : Engine Key JWS) (now : Time)
    (token : String) (K1 K2 : Key) (keyLevel : Int) (mt : MandateToken) (ms : String)
    (m : Mandate)
    (htoken : PassesTokenChecks e now token keyLevel K1 K1 mt)
    (hone : mt.Mandates = [ms])
    (hm : SignedMandate e K2 ms m)
    (hfrom : m.ValidFrom < now) :
    VerifyMandateToken e now token K2 keyLevel
      = .returned { mandates := [], clientKey := none, err := some .mandateNotYetValid } := by
  rw [verify_of_passes e now token K2 keyLevel K1 K1 mt htoken, hone]
  simp [mandateLoop, checkMandate_of_signed e K2 now ms m hm, Time.Before, hfrom]

/-- C1 at the token of `engineInForce`: the mandate is in force
(`validFrom < now < validUntil`), the token is fresh, and verification fails. -/
theorem verify_rejects_mandate_in_force_witness :
    (demoNow - 3600 * Second < demoNow ∧ demoNow < demoNow + 3600 * Second) ∧
    VerifyMandateToken engineInForce demoNow "token" "K2" 0
      = .returned { mandates := [], clientKey := none, err := some .mandateNotYetValid } :=
  ⟨by decide,
   verify_rejects_mandate_in_force engineInForce demoNow "token" "K1" "K2" 0
    ⟨demoNow - 100 * Second, 200, "", ["mandate"]⟩ "mandate"
    ⟨"admin", demoNow - 3600 * Second, demoNow + 3600 * Second⟩
    ⟨⟨["K1"], "tokenPayload", "K1"⟩, [], "tokenPayload", rfl, rfl, rfl, rfl, by decide,
      Or.inl ⟨rfl, rfl⟩⟩
    rfl
    ⟨⟨["K2"], "mandatePayload", "K2"⟩, "K2", [], "mandatePayload", rfl, rfl, rfl, rfl, rfl⟩
    (by decide)⟩

/-- What the verifier does with such a token in every case: it returns the
mandate and `K1` exactly when `now ≤ validFrom` and `validUntil ≤ now`. -/
theorem verify_accepts_iff_window_inverted {Key JWS : Type} (e : Engine Key JWS) (now : Time)
    (token : String) (K1 K2 : Key) (keyLevel : Int) (mt : MandateToken) (ms : String)
    (m : Mandate)
    (htoken : PassesTokenChecks e now token keyLevel K1 K1 mt)
    (hone : mt.Mandates = [ms])
    (hm : SignedMandate e K2 ms m) :
    VerifyMandateToken e now token K2 keyLevel
        = .returned { mandates := [m], clientKey := some K1, err := none }
      ↔ now ≤ m.ValidFrom ∧ m.ValidUntil ≤ now := by
  rw [verify_of_passes e now token K2 keyLevel K1 K1 mt htoken, hone]
  by_cases h1 : m.ValidFrom < now
  · simp [mandateLoop, checkMandate_of_signed e K2 now ms m hm, Time.Before, h1]
  · by_cases h2 : now < m.ValidUntil
    · simp [mandateLoop, checkMandate_of_signed e K2 now ms m hm, Time.Before, Time.After,
        h1, h2]
    · simp [mandateLoop, checkMandate_of_signed e K2 now ms m hm, Time.Before, Time.After,
        h1, h2, not_lt.mp h1, not_lt.mp h2]

/-! ## C2: the two validity-window checks are interchanged -/

/-- C2 (the code departs from it). For every token that passes the token-level
checks and every mandate of it that is reached by the loop (the entries before
it were accepted) and passes the signer and signature checks, with
`validFrom ≤ validUntil`: if `validFrom` is after `now` the verifier fails with
"Mandate has expired", not with "Mandate not yet valid", and if `validUntil` is
before `now` it fails with "Mandate not yet valid", not with "Mandate has
expired". -/
theorem verify_window_errors_interchanged {Key JWS : Type} (e : Engine Key JWS) (now : Time)
    (token : String) (mandateSigner : Key) (keyLevel : Int) (signer0 clientKey : Key)
    (mt : MandateToken) (pre rest : List String) (accepted : List Mandate) (ms : String)
    (m : Mandate)
    (htoken : PassesTokenChecks e now token keyLevel signer0 clientKey mt)
    (hsplit : mt.Mandates = pre ++ ms :: rest)
    (hpre : List.Forall₂
      (fun s a => checkMandate e mandateSigner now s = .returned (.ok a)) pre accepted)
    (hm : SignedMandate e mandateSigner ms m)
    (hwindow : m.ValidFrom ≤ m.ValidUntil) :
    (now < m.ValidFrom →
      VerifyMandateToken e now token mandateSigner keyLevel
        = .returned { mandates := accepted, clientKey := none, err := some .mandateExpired }) ∧
    (m.ValidUntil < now →
      VerifyMandateToken e now token mandateSigner keyLevel
        = .returned { mandates := accepted, clientKey := none,
                      err := some .mandateNotYetValid }) := by
  rw [verify_of_passes e now token mandateSigner keyLevel signer0 clientKey mt htoken, hsplit,
    mandateLoop_accepted e mandateSigner now clientKey pre accepted hpre]
  constructor
  · intro hfuture
    have h1 : ¬ m.ValidFrom < now := not_lt.mpr (le_of_lt hfuture)
    have h2 : now < m.ValidUntil := lt_of_lt_of_le hfuture hwindow
    simp [mandateLoop, checkMandate_of_signed e mandateSigner now ms m hm, Time.Before,
      Time.After, h1, h2]
  · intro hpast
    have h1 : m.ValidFrom < now := lt_of_le_of_lt hwindow hpast
    simp [mandateLoop, checkMandate_of_signed e mandateSigner now ms m hm, Time.Before, h1]

/-- C2 at the two tokens of `engineWindows`: the mandate that is not yet valid
is refused as expired, the expired one as not yet valid. -/
theorem verify_window_errors_interchanged_witness :
    VerifyMandateToken engineWindows demoNow "early" "K2" 0
      = .returned { mandates := [], clientKey := none, err := some .mandateExpired } ∧
    VerifyMandateToken engineWindows demoNow "late" "K2" 0
      = .returned { mandates := [], clientKey := none, err := some .mandateNotYetValid } :=
  ⟨(verify_window_errors_interchanged engineWindows demoNow "early" "K2" 0 "K1" "K1"
      ⟨demoNow - 100 * Second, 200, "", ["notYet"]⟩ [] [] [] "notYet"
      ⟨"admin", demoNow + 3600 * Second, demoNow + 7200 * Second⟩
      ⟨⟨["K1"], "earlyPayload", "K1"⟩, [], "earlyPayload", rfl, rfl, rfl, rfl, by decide,
        Or.inl ⟨rfl, rfl⟩⟩
      rfl List.Forall₂.nil
      ⟨⟨["K2"], "notYetPayload", "K2"⟩, "K2", [], "notYetPayload", rfl, rfl, rfl, rfl, rfl⟩
      (by decide)).1 (by decide),
   (verify_window_errors_interchanged engineWindows demoNow "late" "K2" 0 "K1" "K1"
      ⟨demoNow - 100 * Second, 200, "", ["lapsed"]⟩ [] [] [] "lapsed"
      ⟨"admin", demoNow - 7200 * Second, demoNow - 3600 * Second⟩
      ⟨⟨["K1"], "latePayload", "K1"⟩, [], "latePayload", rfl, rfl, rfl, rfl, by decide,
        Or.inl ⟨rfl, rfl⟩⟩
      rfl List.Forall₂.nil
      ⟨⟨["K2"], "lapsedPayload", "K2"⟩, "K2", [], "lapsedPayload", rfl, rfl, rfl, rfl, rfl⟩
      (by decide)).2 (by decide)⟩

/-! ## C3: token expiry and the `int64` product -/

theorem ttlDuration_of_inRange (ttl : Int) (h0 : 0 ≤ ttl) (h1 : ttl ≤ 9223372036) :
    ttlDuration ttl = Second * ttl := by
  unfold ttlDuration wrapInt64 Second
  omega

theorem ttlDuration_of_overflow (ttl : Int) (h0 : 9223372037 ≤ ttl) (h1 : ttl ≤ 18446744073) :
    ttlDuration ttl = Second * ttl - 18446744073709551616 := by
  unfold ttlDuration wrapInt64 Second
  omega

theorem verify_of_decodes {Key JWS : Type} (e : Engine Key JWS) (now : Time) (token : String)
    (mandateSigner : Key) (keyLevel : Int) (signer0 : Key) (mt : MandateToken)
    (h : DecodesTo e token signer0 mt)
    (hexp : (mt.Timestamp.Add (ttlDuration mt.TTL)).Before now = true) :
    VerifyMandateToken e now token mandateSigner keyLevel = failNil .tokenExpired := by
  obtain ⟨tj, others, payload, hU, hS, hV, hD⟩ := h
  simp [VerifyMandateToken, hU, hS, hV, hD, hexp]

/-- C3 (the code departs from it). For every token whose signature verifies,
issued at or before `now`, with a TTL of `n` seconds where
`9223372037 ≤ n ≤ 18446744073` (a TTL a Go `int` of 64 bits holds),
`VerifyMandateToken` fails with "Token has expired", also when
timestamp + n seconds is not before `now`: the product
`time.Second * time.Duration(n)` wraps to a negative duration. -/
theorem verify_expires_on_ttl_overflow {Key JWS : Type} (e : Engine Key JWS) (now : Time)
    (token : String) (mandateSigner : Key) (keyLevel : Int) (signer0 : Key) (mt : MandateToken)
    (hdec : DecodesTo e token signer0 mt)
    (hlow : 9223372037 ≤ mt.TTL) (hhigh : mt.TTL ≤ 18446744073)
    (hpast : mt.Timestamp ≤ now) :
    VerifyMandateToken e now token mandateSigner keyLevel = failNil .tokenExpired := by
  refine verify_of_decodes e now token mandateSigner keyLevel signer0 mt hdec ?_
  simp only [Time.Before, Time.Add, decide_eq_true_eq]
  rw [ttlDuration_of_overflow mt.TTL hlow hhigh]
  simp only [Time, Second] at *
  omega

/-- C3 at the token `"long"` of `engineTTL`: issued 100 s ago with a TTL of
9223372037 s, so timestamp + TTL seconds is not before `now`, and refused as
expired. -/
theorem verify_expires_on_ttl_overflow_witness :
    ¬ ((demoNow - 100 * Second) + Second * 9223372037 < demoNow) ∧
    VerifyMandateToken engineTTL demoNow "long" "K2" 0 = failNil .tokenExpired :=
  ⟨by decide,
   verify_expires_on_ttl_overflow engineTTL demoNow "long" "K2" 0 "K1"
    ⟨demoNow - 100 * Second, 9223372037, "", []⟩
    ⟨⟨["K1"], "longPayload", "K1"⟩, [], "longPayload", rfl, rfl, rfl, rfl⟩
    (by decide) (by decide) (by decide)⟩

theorem checkMandate_ne_tokenExpired {Key JWS : Type} (e : Engine Key JWS) (mandateSigner : Key)
    (now : Time) (s : String) :
    checkMandate e mandateSigner now s ≠ .returned (.error .tokenExpired) := by
  unfold checkMandate
  repeat' split
  all_goals simp

theorem mandateLoop_ne_tokenExpired {Key JWS : Type} (e : Engine Key JWS) (mandateSigner : Key)
    (now : Time) (clientKey : Key) (l : List String) (acc : List Mandate) (r : VerifyResult Key)
    (h : mandateLoop e mandateSigner now clientKey l acc = .returned r) :
    r.err ≠ some .tokenExpired := by
  induction l generalizing acc with
  | nil =>
    simp only [mandateLoop, Run.returned.injEq] at h
    subst h; simp
  | cons s rest ih =>
    unfold mandateLoop at h
    split at h
    · exact absurd h (by simp)
    · next err hc =>
      simp only [Run.returned.injEq] at h
      subst h
      intro hx
      simp only [Option.some.injEq] at hx
      subst hx
      exact checkMandate_ne_tokenExpired e mandateSigner now s hc
    · exact ih _ h

/-- Within the range where the `int64` product does not wrap (a TTL of at most
9223372036 s, about 292 years), the verifier fails with "Token has expired"
exactly when timestamp + TTL seconds is before `now`. -/
theorem verify_tokenExpired_iff_of_inRange {Key JWS : Type} (e : Engine Key JWS) (now : Time)
    (token : String) (mandateSigner : Key) (keyLevel : Int) (signer0 : Key) (mt : MandateToken)
    (hdec : DecodesTo e token signer0 mt)
    (h0 : 0 ≤ mt.TTL) (h1 : mt.TTL ≤ 9223372036) :
    (∃ r, VerifyMandateToken e now token mandateSigner keyLevel = .returned r ∧
        r.err = some .tokenExpired)
      ↔ mt.Timestamp + Second * mt.TTL < now := by
  obtain ⟨tj, others, payload, hU, hS, hV, hD⟩ := hdec
  have hdur := ttlDuration_of_inRange mt.TTL h0 h1
  constructor
  · rintro ⟨r, hr, herr⟩
    by_contra hnot
    have hB : (mt.Timestamp.Add (ttlDuration mt.TTL)).Before now = false := by
      simp only [Time.Before, Time.Add, hdur, decide_eq_false_iff_not]
      exact hnot
    simp only [VerifyMandateToken, hU, hS, hV, hD, hB] at hr
    by_cases hc : mt.Certificate = ""
    · simp [hc] at hr
      exact mandateLoop_ne_tokenExpired e mandateSigner now _ _ _ r hr herr
    · simp [hc] at hr
      split at hr
      · simp [failNil] at hr
        subst hr
        simp at herr
      · exact mandateLoop_ne_tokenExpired e mandateSigner now _ _ _ r hr herr
  · intro hlt
    have hB : (mt.Timestamp.Add (ttlDuration mt.TTL)).Before now = true := by
      simp only [Time.Before, Time.Add, hdur, decide_eq_true_eq]
      exact hlt
    exact ⟨{ mandates := [], clientKey := none, err := some .tokenExpired },
      by simp [VerifyMandateToken, hU, hS, hV, hD, hB, failNil], rfl⟩

/-- The two TTL examples of the specification at `engineTTL`: issued 100 s ago,
a TTL of 50 s is refused as expired and a TTL of 200 s is accepted. -/
theorem verify_ttl_examples :
    VerifyMandateToken engineTTL demoNow "short" "K2" 0 = failNil .tokenExpired ∧
    VerifyMandateToken engineTTL demoNow "fine" "K2" 0
      = .returned { mandates := [], clientKey := some "K1", err := none } := by
  constructor <;> rfl

/-! ## C4: the first mandate of a foreign signer -/

/-- C4, as stated, fails at the token of `engineForged`: the token passes the
token-level checks, entry 1 is the first entry whose signer thumbprint differs
from that of the expected signer `K2` (entry 0 names `K2`), yet verification
fails at entry 0 with the signature error, not with "Mandate not signed by
correct key". -/
theorem verify_first_foreign_signer_counterexample :
    PassesTokenChecks engineForged demoNow "token" 0 "K1" "K1"
      ⟨demoNow - 100 * Second, 200, "", ["forged", "foreign"]⟩ ∧
    RightSigner engineForged "K2" "forged" ∧
    WrongSigner engineForged "K2" "foreign" ∧
    VerifyMandateToken engineForged demoNow "token" "K2" 0
      = .returned { mandates := [], clientKey := none,
                    err := some (.collaborator "signature does not verify") } ∧
    ∀ ms, VerifyMandateToken engineForged demoNow "token" "K2" 0
      ≠ .returned { mandates := ms, clientKey := none, err := some .wrongMandateSigner } := by
  refine ⟨⟨⟨["K1"], "tokenPayload", "K1"⟩, [], "tokenPayload", rfl, rfl, rfl, rfl, by decide,
      Or.inl ⟨rfl, rfl⟩⟩,
    ⟨⟨["K2"], "forgedPayload", "K9"⟩, "K2", [], rfl, rfl, rfl⟩,
    ⟨⟨["K3"], "foreignPayload", "K3"⟩, "K3", [], rfl, rfl, by decide⟩, rfl, ?_⟩
  intro ms h
  have h0 : VerifyMandateToken engineForged demoNow "token" "K2" 0
      = .returned { mandates := [], clientKey := none,
                    err := some (.collaborator "signature does not verify") } := rfl
  rw [h0] at h
  simp at h

/-- C4, amended. For every token that passes the token-level checks, if
entry `i` of its mandate list is the first whose signer thumbprint differs
from the thumbprint of the expected mandate signer and each of the `i` entries
before it is accepted by the per-mandate checks of the verifier (decoding to
`accepted`), then `VerifyMandateToken` fails with "Mandate not signed by correct
key", returns no client key, and returns alongside the error exactly
`accepted`, the mandates decoded from those `i` entries in token order. -/
theorem verify_first_foreign_signer {Key JWS : Type} (e : Engine Key JWS) (now : Time)
    (token : String) (mandateSigner : Key) (keyLevel : Int) (signer0 clientKey : Key)
    (mt : MandateToken) (pre rest : List String) (accepted : List Mandate) (ms : String)
    (htoken : PassesTokenChecks e now token keyLevel signer0 clientKey mt)
    (hsplit : mt.Mandates = pre ++ ms :: rest)
    (hpre : List.Forall₂
      (fun s a => checkMandate e mandateSigner now s = .returned (.ok a)) pre accepted)
    (hms : WrongSigner e mandateSigner ms) :
    VerifyMandateToken e now token mandateSigner keyLevel
      = .returned { mandates := accepted, clientKey := none,
                    err := some .wrongMandateSigner } := by
  rw [verify_of_passes e now token mandateSigner keyLevel signer0 clientKey mt htoken, hsplit,
    mandateLoop_accepted e mandateSigner now clientKey pre accepted hpre]
  simp [mandateLoop, checkMandate_of_wrongSigner e mandateSigner now ms hms]

/-- C4, amended, at the token of `engineForeign`: entry 0 is accepted, entry 1
is signed by `K3`, and the mandate of entry 0 comes back with the error. -/
theorem verify_first_foreign_signer_witness :
    VerifyMandateToken engineForeign demoNow "token" "K2" 0
      = .returned { mandates := [⟨"admin", demoNow, demoNow⟩], clientKey := none,
                    err := some .wrongMandateSigner } :=
  verify_first_foreign_signer engineForeign demoNow "token" "K2" 0 "K1" "K1"
    ⟨demoNow - 100 * Second, 200, "", ["granted", "foreign"]⟩ ["granted"] []
    [⟨"admin", demoNow, demoNow⟩] "foreign"
    ⟨⟨["K1"], "tokenPayload", "K1"⟩, [], "tokenPayload", rfl, rfl, rfl, rfl, by decide,
      Or.inl ⟨rfl, rfl⟩⟩
    rfl (List.Forall₂.cons rfl List.Forall₂.nil)
    ⟨⟨["K3"], "foreignPayload", "K3"⟩, "K3", [], rfl, rfl, by decide⟩

/-! ## C5: the client identity -/

theorem mandateLoop_clientKey {Key JWS : Type} (e : Engine Key JWS) (mandateSigner : Key)
    (now : Time) (clientKey : Key) (l : List String) (acc : List Mandate) (r : VerifyResult Key)
    (h : mandateLoop e mandateSigner now clientKey l acc = .returned r) (herr : r.err = none) :
    r.clientKey = some clientKey := by
  induction l generalizing acc with
  | nil =>
    simp only [mandateLoop, Run.returned.injEq] at h
    subst h; rfl
  | cons s rest ih =>
    unfold mandateLoop at h
    split at h
    · exact absurd h (by simp)
    · simp only [Run.returned.injEq] at h
      subst h
      simp at herr
    · exact ih _ h

/-- C5. For every token `VerifyMandateToken` accepts (it returns without
error), the token decodes to a mandate token and the returned client key is the
issuer key of the validated certificate chain when the token carries a
certificate, and the key in the token's own signature header when it carries
none. When a token carries a certificate whose chain validation fails,
verification returns an error, no mandates and no client key. -/
theorem verify_client_key {Key JWS : Type} (e : Engine Key JWS) (now : Time) (token : String)
    (mandateSigner : Key) (keyLevel : Int) :
    (∀ r, VerifyMandateToken e now token mandateSigner keyLevel = .returned r → r.err = none →
      ∃ signer0 mt, DecodesTo e token signer0 mt ∧
        ((mt.Certificate = "" ∧ r.clientKey = some signer0) ∨
         (mt.Certificate ≠ "" ∧ ∃ issuer,
            e.VerifyCertificate mt.Certificate keyLevel = .ok issuer ∧
            r.clientKey = some issuer))) ∧
    (∀ signer0 mt msg, DecodesTo e token signer0 mt → mt.Certificate ≠ "" →
      e.VerifyCertificate mt.Certificate keyLevel = .error msg →
      ∃ err, VerifyMandateToken e now token mandateSigner keyLevel
        = .returned { mandates := [], clientKey := none, err := some err }) := by
  constructor
  · intro r hr herr
    unfold VerifyMandateToken at hr
    split at hr
    · simp only [failNil, Run.returned.injEq] at hr; subst hr; simp at herr
    · next tj hU =>
      split at hr
      · simp only [failNil, Run.returned.injEq] at hr; subst hr; simp at herr
      · next signer0 others hS =>
        split at hr
        · simp only [failNil, Run.returned.injEq] at hr; subst hr; simp at herr
        · next payload hV =>
          split at hr
          · simp only [failNil, Run.returned.injEq] at hr; subst hr; simp at herr
          · exact absurd hr (by simp)
          · next mt hD =>
            refine ⟨signer0, mt, ⟨tj, others, payload, hU, hS, hV, hD⟩, ?_⟩
            split at hr
            · simp only [failNil, Run.returned.injEq] at hr; subst hr; simp at herr
            · split at hr
              · next hc =>
                split at hr
                · simp only [failNil, Run.returned.injEq] at hr; subst hr; simp at herr
                · next issuer hX =>
                  exact Or.inr ⟨hc, issuer, hX,
                    mandateLoop_clientKey e mandateSigner now issuer _ _ r hr herr⟩
              · next hc =>
                exact Or.inl ⟨not_not.mp hc,
                  mandateLoop_clientKey e mandateSigner now signer0 _ _ r hr herr⟩
  · rintro signer0 mt msg ⟨tj, others, payload, hU, hS, hV, hD⟩ hc hX
    by_cases hexp : (mt.Timestamp.Add (ttlDuration mt.TTL)).Before now = true
    · exact ⟨.tokenExpired, by simp [VerifyMandateToken, hU, hS, hV, hD, hexp, failNil]⟩
    · exact ⟨.collaborator msg, by simp [VerifyMandateToken, hU, hS, hV, hD, hexp, hc, hX, failNil]⟩

/-- C5 at the three tokens of `engineCert`: without certificate the client key
is the token signer `K1`, with the valid chain it is the issuer `KI`, and with
the invalid chain verification fails with nothing returned. -/
theorem verify_client_key_witness :
    (VerifyMandateToken engineCert demoNow "plain" "K2" 0
        = .returned { mandates := [], clientKey := some "K1", err := none } ∧
      ∃ signer0 mt, DecodesTo engineCert "plain" signer0 mt ∧
        ((mt.Certificate = "" ∧ some "K1" = some signer0) ∨
         (mt.Certificate ≠ "" ∧ ∃ issuer,
            engineCert.VerifyCertificate mt.Certificate 0 = .ok issuer ∧
            some "K1" = some issuer))) ∧
    (VerifyMandateToken engineCert demoNow "delegated" "K2" 0
        = .returned { mandates := [], clientKey := some "KI", err := none } ∧
      ∃ signer0 mt, DecodesTo engineCert "delegated" signer0 mt ∧
        ((mt.Certificate = "" ∧ some "KI" = some signer0) ∨
         (mt.Certificate ≠ "" ∧ ∃ issuer,
            engineCert.VerifyCertificate mt.Certificate 0 = .ok issuer ∧
            some "KI" = some issuer))) ∧
    ∃ err, VerifyMandateToken engineCert demoNow "broken" "K2" 0
        = .returned { mandates := [], clientKey := none, err := some err } :=
  ⟨⟨rfl, (verify_client_key engineCert demoNow "plain" "K2" 0).1
      { mandates := [], clientKey := some "K1", err := none } rfl rfl⟩,
   ⟨rfl, (verify_client_key engineCert demoNow "delegated" "K2" 0).1
      { mandates := [], clientKey := some "KI", err := none } rfl rfl⟩,
   (verify_client_key engineCert demoNow "broken" "K2" 0).2 "K1"
      ⟨demoNow - 100 * Second, 200, "no chain", []⟩ "certificate chain not valid"
      ⟨⟨["K1"], "brokenPayload", "K1"⟩, [], "brokenPayload", rfl, rfl, rfl, rfl⟩
      (by decide) rfl⟩

/-! ## C6: the authorization decision -/

theorem hasRole_eq_true_iff (roleList : List String) (role : String) :
    hasRole roleList role = true ↔ role ∈ roleList := by
  induction roleList with
  | nil => simp [hasRole]
  | cons r rest ih =>
    unfold hasRole
    by_cases h : r = role
    · simp [h]
    · simp [h, ih, Ne.symm h]

theorem successLoop_foldl {Key : Type} (cond : AuthenticatedMandate Key → Bool)
    (mandates : List (AuthenticatedMandate Key)) (init : Bool) :
    mandates.foldl (fun success mandate => if cond mandate then true else success) init
      = (init || mandates.any cond) := by
  induction mandates generalizing init with
  | nil => simp
  | cons a rest ih =>
    simp only [List.foldl_cons, List.any_cons, ih]
    cases init <;> cases cond a <;> simp

theorem successLoop_eq_true_iff {Key JWS : Type} (e : Engine Key JWS) (binding : Binding Key)
    (realmTP : String) (mandates : List (AuthenticatedMandate Key)) :
    successLoop e binding realmTP mandates = true ↔
      ∃ mandate ∈ mandates, e.Thumbprint mandate.Signer = realmTP ∧
        mandate.Mandate.Role ∈ binding.AdminRoles := by
  unfold successLoop
  have h := successLoop_foldl
    (fun mandate : AuthenticatedMandate Key =>
      decide (realmTP = e.Thumbprint mandate.Signer) &&
        hasRole binding.AdminRoles mandate.Mandate.Role) mandates false
  beta_reduce at h
  rw [h]
  simp only [Bool.false_or, List.any_eq_true, Bool.and_eq_true, decide_eq_true_eq,
    hasRole_eq_true_iff]
  constructor
  · rintro ⟨m, hm, h1, h2⟩
    exact ⟨m, hm, h1.symm, h2⟩
  · rintro ⟨m, hm, h1, h2⟩
    exact ⟨m, hm, h1.symm, h2⟩

theorem authorize_eq {Key JWS ρ : Type} (e : Engine Key JWS) (binding : Binding Key)
    (realm : RealmDescriptor Key) (mandates : List (AuthenticatedMandate Key)) (call : Unit → ρ)
    (hrealm : binding.Realm = some realm) :
    ((∃ mandate ∈ mandates, e.Thumbprint mandate.Signer = e.Thumbprint realm.PublicKey ∧
          mandate.Mandate.Role ∈ binding.AdminRoles) →
        authorize e binding mandates call = .returned (.handled (call ()))) ∧
    ((¬ ∃ mandate ∈ mandates, e.Thumbprint mandate.Signer = e.Thumbprint realm.PublicKey ∧
          mandate.Mandate.Role ∈ binding.AdminRoles) →
        authorize e binding mandates call
          = .returned (.errorResponse StatusForbidden "Mandate not signed by binding realm")) := by
  have hiff := successLoop_eq_true_iff e binding (e.Thumbprint realm.PublicKey) mandates
  constructor
  · intro h
    have hs := hiff.mpr h
    simp [authorize, hrealm, hs]
  · intro h
    have hs : successLoop e binding (e.Thumbprint realm.PublicKey) mandates = false := by
      cases hb : successLoop e binding (e.Thumbprint realm.PublicKey) mandates
      · rfl
      · exact absurd (hiff.mp hb) h
    simp [authorize, hrealm, hs]

/-- C6. For every Binding that a request resolves to and whose realm is
present, and every list of (signer key, mandate) pairs on the request, both
authorization wrappers hand the request (with the Binding) to the handler and
return its answer if at least one pair has a signer thumbprint equal to the
thumbprint of the realm public key and a role contained in `AdminRoles()`;
otherwise they answer Forbidden (status 403) without calling the handler. -/
theorem wrappers_grant_iff_some_mandate {Key JWS ρ : Type} (e : Engine Key JWS)
    (Get : String → Except String (Binding Key)) (binding : Binding Key)
    (realm : RealmDescriptor Key) (hrealm : binding.Realm = some realm) :
    (∀ (h : standardAuthenticatedRequestWithBinding Key → ρ) (req : AuthenticatedRequest Key),
      req.bindingQuery ≠ "" → Get req.bindingQuery = .ok binding →
      ((∃ mandate ∈ req.Mandates,
            e.Thumbprint mandate.Signer = e.Thumbprint realm.PublicKey ∧
            mandate.Mandate.Role ∈ binding.AdminRoles) →
          addAuthenticatedBinding e Get h req
            = .returned (.handled (h { AuthenticatedRequest := req, binding := binding }))) ∧
      ((¬ ∃ mandate ∈ req.Mandates,
            e.Thumbprint mandate.Signer = e.Thumbprint realm.PublicKey ∧
            mandate.Mandate.Role ∈ binding.AdminRoles) →
          addAuthenticatedBinding e Get h req
            = .returned
                (.errorResponse StatusForbidden "Mandate not signed by binding realm"))) ∧
    (∀ (h : standardActionRequestWithBinding Key → ρ) (req : ActionRequest Key) (bindID : String),
      actionBindID req = some bindID → Get bindID = .ok binding →
      ((∃ mandate ∈ req.Mandates,
            e.Thumbprint mandate.Signer = e.Thumbprint realm.PublicKey ∧
            mandate.Mandate.Role ∈ binding.AdminRoles) →
          addActionBinding e Get h req
            = .returned (.handled (h { ActionRequest := req, binding := binding }))) ∧
      ((¬ ∃ mandate ∈ req.Mandates,
            e.Thumbprint mandate.Signer = e.Thumbprint realm.PublicKey ∧
            mandate.Mandate.Role ∈ binding.AdminRoles) →
          addActionBinding e Get h req
            = .returned
                (.errorResponse StatusForbidden "Mandate not signed by binding realm"))) := by
  constructor
  · intro h req hq hGet
    have hA := authorize_eq e binding realm req.Mandates
      (fun _ => h { AuthenticatedRequest := req, binding := binding }) hrealm
    simp only [addAuthenticatedBinding, hq, hGet, if_false]
    exact hA
  · intro h req bindID hid hGet
    have hA := authorize_eq e binding realm req.Mandates
      (fun _ => h { ActionRequest := req, binding := binding }) hrealm
    simp only [addActionBinding, hid, hGet]
    exact hA

/-- C6 at the binding `demoBound` (realm key `R`, admin role `admin`): a
mandate signed by `R` for `admin` is granted, also next to one that does not
qualify; a mandate signed by `R` for `viewer`, a mandate for `admin` signed by
another key, and an empty mandate list are answered Forbidden. -/
theorem wrappers_grant_iff_some_mandate_witness :
    addAuthenticatedBinding (demoEngine [] [] [] []) demoGet demoAuthenticatedHandler
        { bindingQuery := "b1", Mandates := [demoMandate "R" "admin"] }
      = .returned (.handled "b1") ∧
    addAuthenticatedBinding (demoEngine [] [] [] []) demoGet demoAuthenticatedHandler
        { bindingQuery := "b1", Mandates := [demoMandate "R" "viewer"] }
      = .returned (.errorResponse 403 "Mandate not signed by binding realm") ∧
    addAuthenticatedBinding (demoEngine [] [] [] []) demoGet demoAuthenticatedHandler
        { bindingQuery := "b1", Mandates := [] }
      = .returned (.errorResponse 403 "Mandate not signed by binding realm") ∧
    addActionBinding (demoEngine [] [] [] []) demoGet demoActionHandler
        { bindingQuery := "", Mandates := [demoMandate "X" "admin", demoMandate "R" "admin"],
          ActionParams := some demoParams }
      = .returned (.handled "b1") ∧
    addActionBinding (demoEngine [] [] [] []) demoGet demoActionHandler
        { bindingQuery := "b1", Mandates := [demoMandate "X" "admin"], ActionParams := none }
      = .returned (.errorResponse 403 "Mandate not signed by binding realm") :=
  ⟨(((wrappers_grant_iff_some_mandate (demoEngine [] [] [] []) demoGet demoBound
        { Name := "example.com", PublicKey := "R" } rfl).1 demoAuthenticatedHandler
        { bindingQuery := "b1", Mandates := [demoMandate "R" "admin"] }
        (by decide) rfl).1 (by decide)),
   (((wrappers_grant_iff_some_mandate (demoEngine [] [] [] []) demoGet demoBound
        { Name := "example.com", PublicKey := "R" } rfl).1 demoAuthenticatedHandler
        { bindingQuery := "b1", Mandates := [demoMandate "R" "viewer"] }
        (by decide) rfl).2 (by decide)),
   (((wrappers_grant_iff_some_mandate (demoEngine [] [] [] []) demoGet demoBound
        { Name := "example.com", PublicKey := "R" } rfl).1 demoAuthenticatedHandler
        { bindingQuery := "b1", Mandates := [] }
        (by decide) rfl).2 (by decide)),
   (((wrappers_grant_iff_some_mandate (demoEngine [] [] [] []) demoGet demoBound
        { Name := "example.com", PublicKey := "R" } rfl).2 demoActionHandler
        { bindingQuery := "", Mandates := [demoMandate "X" "admin", demoMandate "R" "admin"],
          ActionParams := some demoParams }
        "b1" rfl rfl).1 (by decide)),
   (((wrappers_grant_iff_some_mandate (demoEngine [] [] [] []) demoGet demoBound
        { Name := "example.com", PublicKey := "R" } rfl).2 demoActionHandler
        { bindingQuery := "b1", Mandates := [demoMandate "X" "admin"], ActionParams := none }
        "b1" rfl rfl).2 (by decide))⟩

/-! ## C7: `Bind` on the in-memory binding -/

theorem mock_bind_binding {Key : Type} (m : mockBinding Key) (c : Option (ControllerBinding Key))
    (hhook : ∀ f, m.postBindFunc = some f → ∀ s, (f s).binding = s.binding) :
    (m.Bind c).1.binding = c := by
  unfold mockBinding.Bind mockBinding.runHook
  cases hf : m.postBindFunc with
  | none => simp [hf]
  | some f => simp [hf, hhook f hf]

theorem mock_unbind_binding {Key : Type} (m : mockBinding Key)
    (hhook : ∀ f, m.postUnbindFunc = some f → ∀ s, (f s).binding = s.binding) :
    (m.Unbind).1.binding = none := by
  unfold mockBinding.Unbind mockBinding.runHook
  cases hf : m.postUnbindFunc with
  | none => simp [hf]
  | some f => simp [hf, hhook f hf]

/-- C7, as stated, fails at an in-memory binding whose post-bind hook calls
`Unbind`: `Bind(demoDoc)` succeeds, and afterwards `Certificate()` is empty and
`ControllerBinding()` absent although the document carries the certificate
`abc`. -/
theorem mock_bind_reads_back_counterexample :
    ((demoMock none (some hookUnbind) none).Bind (some demoDoc)).2 = none ∧
    ((demoMock none (some hookUnbind) none).Bind (some demoDoc)).1.Certificate = "" ∧
    ((demoMock none (some hookUnbind) none).Bind (some demoDoc)).1.ControllerBinding = none ∧
    demoDoc.ControllerCertificate = "abc" := by
  refine ⟨rfl, rfl, rfl, rfl⟩

/-- C7, amended. For every Binding of the in-memory registry in any prior
state (unbound or already bound) whose post-bind hook, if one is registered,
leaves the bound state as it finds it, and every controller-binding document
`doc`, `Bind(doc)` succeeds and afterwards `Certificate()`, `AdminRoles()`,
`Mandates()`, `Realm()` and `ControllerBinding()` return exactly the values in
`doc`, with nothing left over from the earlier binding. -/
theorem mock_bind_reads_back {Key : Type} (m : mockBinding Key) (doc : ControllerBinding Key)
    (hhook : ∀ f, m.postBindFunc = some f → ∀ s, (f s).binding = s.binding) :
    (m.Bind (some doc)).2 = none ∧
    (m.Bind (some doc)).1.Certificate = doc.ControllerCertificate ∧
    (m.Bind (some doc)).1.AdminRoles = doc.AdminRoles ∧
    (m.Bind (some doc)).1.Mandates = doc.Mandates ∧
    (m.Bind (some doc)).1.Realm = doc.RealmDescriptor ∧
    (m.Bind (some doc)).1.ControllerBinding = some doc := by
  have hb := mock_bind_binding m (some doc) hhook
  refine ⟨rfl, ?_, ?_, ?_, ?_, ?_⟩ <;>
    simp [mockBinding.Certificate, mockBinding.AdminRoles, mockBinding.Mandates,
      mockBinding.Realm, mockBinding.ControllerBinding, hb]

/-- C7, amended, at a binding already bound with `demoSparseDoc` whose
post-bind hook sets the status: after `Bind(demoDoc)` the accessors return the
values of `demoDoc`. -/
theorem mock_bind_reads_back_witness :
    ((demoMock (some demoSparseDoc) (some (hookSetStatus "setup_required")) none).Bind
        (some demoDoc)).2 = none ∧
    ((demoMock (some demoSparseDoc) (some (hookSetStatus "setup_required")) none).Bind
        (some demoDoc)).1.Certificate = "abc" ∧
    ((demoMock (some demoSparseDoc) (some (hookSetStatus "setup_required")) none).Bind
        (some demoDoc)).1.AdminRoles = ["admin"] ∧
    ((demoMock (some demoSparseDoc) (some (hookSetStatus "setup_required")) none).Bind
        (some demoDoc)).1.Mandates = ["def"] ∧
    ((demoMock (some demoSparseDoc) (some (hookSetStatus "setup_required")) none).Bind
        (some demoDoc)).1.Realm = some { Name := "example.com", PublicKey := "R" } ∧
    ((demoMock (some demoSparseDoc) (some (hookSetStatus "setup_required")) none).Bind
        (some demoDoc)).1.ControllerBinding = some demoDoc :=
  mock_bind_reads_back (demoMock (some demoSparseDoc) (some (hookSetStatus "setup_required")) none)
    demoDoc (by intro f hf s; cases hf; rfl)

/-! ## C8: the relational binding stores string lists comma-joined -/

/-- C8 (the code departs from it). `Bind(demoCommaDoc)` on a fresh relational
binding succeeds, the document holds the one admin role `ops,admin` and the
mandate list `[""]`, and afterwards `AdminRoles()` returns the two roles `ops`
and `admin` and `Mandates()` returns the empty list. -/
theorem gorm_bind_lists_not_read_back :
    demoCommaDoc.AdminRoles = ["ops,admin"] ∧ demoCommaDoc.Mandates = [""] ∧
    ∃ g db, gormBinding.Bind demoJSON tableStore demoGorm (some demoCommaDoc) []
        = .returned ((g, db), none) ∧
      g.AdminRoles = ["ops", "admin"] ∧ g.Mandates = [] :=
  ⟨rfl, rfl, _, _, rfl, by decide, by decide⟩

/-! ## C9: `Unbind` clears the bound state -/

theorem splitChars_ne_nil (sep : Char) (cs : List Char) : splitChars sep cs ≠ [] := by
  cases cs with
  | nil => simp [splitChars]
  | cons c rest =>
    unfold splitChars
    split
    · simp
    · split <;> simp

theorem stringsSplit_ne_nil (s : String) (sep : Char) : stringsSplit s sep ≠ [] := by
  simp [stringsSplit, splitChars_ne_nil]

theorem gorm_unbind_columns {σ : Type} (store : Store σ) (g : gormBinding σ) (db : σ)
    (hhook : ∀ f, g.postUnbindFunc = some f →
      ∀ c d, (f (c, d)).1.boundColumns = c.boundColumns) :
    (g.Unbind store db).1.1.boundColumns = ["", "", "", "", ""] := by
  unfold gormBinding.Unbind gormBinding.runHook
  cases hf : g.postUnbindFunc with
  | none => simp [hf, gormColumns.boundColumns]
  | some f =>
    simp only [hf]
    exact (hhook f hf _ _).trans (by simp [gormColumns.boundColumns])

theorem gorm_boundState_of_cleared {Key σ : Type} (codec : Codec Key) (g : gormBinding σ)
    (h : g.boundColumns = ["", "", "", "", ""]) :
    g.Certificate = "" ∧ g.Mandates = [] ∧ g.AdminRoles = [] ∧ g.Realm codec = none ∧
      g.ControllerBinding codec = none := by
  simp only [gormColumns.boundColumns, List.cons.injEq, and_true] at h
  obtain ⟨h1, h2, h3, h4, h5⟩ := h
  refine ⟨h1, by simp [gormBinding.Mandates, h2], by simp [gormBinding.AdminRoles, h3], ?_, ?_⟩
  · unfold gormBinding.Realm
    rw [h4]
    cases hr : codec.unmarshalRealm "" with
    | error _ => rfl
    | ok r => exact absurd hr (codec.unmarshalRealm_empty r)
  · unfold gormBinding.ControllerBinding
    rw [h5]
    cases hr : codec.unmarshalControllerBinding "" with
    | error _ => rfl
    | ok r => exact absurd hr (codec.unmarshalControllerBinding_empty r)

/-- C9, as stated, fails at an in-memory binding bound with `demoDoc` whose
post-unbind hook calls `Bind(demoDoc)`: `Unbind()` succeeds, and afterwards
`Certificate()` is `abc` and `Mandates()` has length 1. -/
theorem unbind_clears_bound_state_counterexample :
    ((demoMock (some demoDoc) none (some (hookBind demoDoc))).Unbind).2 = none ∧
    ((demoMock (some demoDoc) none (some (hookBind demoDoc))).Unbind).1.Certificate = "abc" ∧
    ((demoMock (some demoDoc) none (some (hookBind demoDoc))).Unbind).1.Mandates.length = 1 := by
  refine ⟨rfl, rfl, rfl⟩

/-- C9, amended. For every Binding (in-memory or gorm) in any state whose
post-unbind hook, if one is registered, leaves the bound state as it finds it,
a successful `Unbind()` leaves every bound-state accessor empty or absent:
`Certificate()` is the empty string, `Mandates()` and `AdminRoles()` have length
0, and `Realm()` and `ControllerBinding()` are absent. On the in-memory binding
`Unbind()` always succeeds. -/
theorem unbind_clears_bound_state (Key σ : Type) :
    (∀ m : mockBinding Key,
      (∀ f, m.postUnbindFunc = some f → ∀ s, (f s).binding = s.binding) →
      (m.Unbind).2 = none ∧
      (m.Unbind).1.Certificate = "" ∧ (m.Unbind).1.Mandates.length = 0 ∧
      (m.Unbind).1.AdminRoles.length = 0 ∧ (m.Unbind).1.Realm = none ∧
      (m.Unbind).1.ControllerBinding = none) ∧
    (∀ (codec : Codec Key) (store : Store σ) (g : gormBinding σ) (db : σ),
      (∀ f, g.postUnbindFunc = some f →
        ∀ c d, (f (c, d)).1.boundColumns = c.boundColumns) →
      (g.Unbind store db).2 = none →
      (g.Unbind store db).1.1.Certificate = "" ∧ (g.Unbind store db).1.1.Mandates.length = 0 ∧
      (g.Unbind store db).1.1.AdminRoles.length = 0 ∧
      (g.Unbind store db).1.1.Realm codec = none ∧
      (g.Unbind store db).1.1.ControllerBinding codec = none) := by
  constructor
  · intro m hhook
    have hb := mock_unbind_binding m hhook
    refine ⟨rfl, ?_, ?_, ?_, ?_, ?_⟩ <;>
      simp [mockBinding.Certificate, mockBinding.AdminRoles, mockBinding.Mandates,
        mockBinding.Realm, mockBinding.ControllerBinding, hb]
  · intro codec store g db hhook _
    obtain ⟨h1, h2, h3, h4, h5⟩ :=
      gorm_boundState_of_cleared codec (g.Unbind store db).1.1
        (gorm_unbind_columns store g db hhook)
    exact ⟨h1, by simp [h2], by simp [h3], h4, h5⟩

/-- C9, amended, at the in-memory binding bound with `demoDoc` whose
post-unbind hook sets the status, and at the relational binding bound with
`demoDoc`: after `Unbind()` every bound-state accessor is empty or absent. -/
theorem unbind_clears_bound_state_witness :
    (((demoMock (some demoDoc) none (some (hookSetStatus "bla"))).Unbind).2 = none ∧
      ((demoMock (some demoDoc) none (some (hookSetStatus "bla"))).Unbind).1.Certificate = "" ∧
      ((demoMock (some demoDoc) none (some (hookSetStatus "bla"))).Unbind).1.Mandates.length = 0 ∧
      ((demoMock (some demoDoc) none (some (hookSetStatus "bla"))).Unbind).1.AdminRoles.length
        = 0 ∧
      ((demoMock (some demoDoc) none (some (hookSetStatus "bla"))).Unbind).1.Realm = none ∧
      ((demoMock (some demoDoc) none (some (hookSetStatus "bla"))).Unbind).1.ControllerBinding
        = none) ∧
    (demoGormBound.Certificate = "abc" ∧
      (demoGormBound.Unbind tableStore [demoGormBound.togormColumns]).1.1.Certificate = "" ∧
      (demoGormBound.Unbind tableStore [demoGormBound.togormColumns]).1.1.Mandates.length = 0 ∧
      (demoGormBound.Unbind tableStore [demoGormBound.togormColumns]).1.1.AdminRoles.length
        = 0 ∧
      (demoGormBound.Unbind tableStore [demoGormBound.togormColumns]).1.1.Realm demoJSON
        = none ∧
      (demoGormBound.Unbind tableStore [demoGormBound.togormColumns]).1.1.ControllerBinding
        demoJSON = none) :=
  ⟨(unbind_clears_bound_state String (List gormColumns)).1
      (demoMock (some demoDoc) none (some (hookSetStatus "bla")))
      (by intro f hf s; cases hf; rfl),
   rfl,
   (unbind_clears_bound_state String (List gormColumns)).2 demoJSON tableStore demoGormBound
      [demoGormBound.togormColumns] (by intro f hf; cases hf) rfl⟩

/-! ## C10: empty or populated together -/

theorem gorm_setRealm_columns {Key σ : Type} (codec : Codec Key) (g g1 : gormBinding σ)
    (realm : Option (RealmDescriptor Key)) (h : g.setRealm codec realm = (g1, none)) :
    g1.DBcertificate = g.DBcertificate ∧ g1.DBmandates = g.DBmandates ∧
      g1.DBadminRoles = g.DBadminRoles ∧ g1.postBindFunc = g.postBindFunc := by
  unfold gormBinding.setRealm at h
  split at h
  · simp at h
  · simp only [Prod.mk.injEq, and_true] at h
    subst h
    exact ⟨rfl, rfl, rfl, rfl⟩

theorem gorm_setControllerBinding_columns {Key σ : Type} (codec : Codec Key)
    (g g1 : gormBinding σ) (c : Option (ControllerBinding Key))
    (h : g.setControllerBinding codec c = (g1, none)) :
    g1.DBcertificate = g.DBcertificate ∧ g1.DBmandates = g.DBmandates ∧
      g1.DBadminRoles = g.DBadminRoles ∧ g1.postBindFunc = g.postBindFunc := by
  unfold gormBinding.setControllerBinding at h
  split at h
  · simp at h
  · simp only [Prod.mk.injEq, and_true] at h
    subst h
    exact ⟨rfl, rfl, rfl, rfl⟩

theorem gorm_runHook_columns {σ : Type} (g : gormBinding σ)
    (hook : Option (gormColumns × σ → gormColumns × σ)) (db : σ)
    (hhook : ∀ f, hook = some f → ∀ c d, (f (c, d)).1.boundColumns = c.boundColumns) :
    (g.runHook hook db).1.boundColumns = g.boundColumns := by
  unfold gormBinding.runHook
  cases hf : hook with
  | none => rfl
  | some f => exact hhook f hf _ _

theorem gorm_bind_columns {Key σ : Type} (codec : Codec Key) (store : Store σ)
    (g : gormBinding σ) (doc : ControllerBinding Key) (db : σ) (g1 : gormBinding σ) (db1 : σ)
    (hhook : ∀ f, g.postBindFunc = some f →
      ∀ c d, (f (c, d)).1.boundColumns = c.boundColumns)
    (h : g.Bind codec store (some doc) db = .returned ((g1, db1), none)) :
    g1.DBcertificate = doc.ControllerCertificate ∧
      g1.DBmandates = stringsJoin doc.Mandates "," ∧
      g1.DBadminRoles = stringsJoin doc.AdminRoles "," := by
  unfold gormBinding.Bind at h
  simp only at h
  split at h
  · simp at h
  · next g4 hR =>
    split at h
    · simp at h
    · next g5 hC =>
      split at h
      · simp at h
      · next db2 hS =>
        simp only [Run.returned.injEq, Prod.mk.injEq, and_true] at h
        obtain ⟨r1, r2, r3, r4⟩ := gorm_setRealm_columns codec _ g4 _ hR
        obtain ⟨c1, c2, c3, c4⟩ := gorm_setControllerBinding_columns codec g4 g5 _ hC
        have hp : g5.postBindFunc = g.postBindFunc := by
          rw [c4, r4]; rfl
        have hcols := gorm_runHook_columns g5 g5.postBindFunc db2
          (by intro f hf; exact hhook f (hp ▸ hf))
        have hg : (g5.runHook g5.postBindFunc db2).1 = g1 := by rw [h]
        rw [hg] at hcols
        simp only [gormColumns.boundColumns, List.cons.injEq, and_true] at hcols
        obtain ⟨k1, k2, k3, _, _⟩ := hcols
        refine ⟨?_, ?_, ?_⟩
        · rw [k1, c1, r1]; rfl
        · rw [k2, c2, r2]; rfl
        · rw [k3, c3, r3]; rfl

theorem gorm_bind_returned {Key σ : Type} (codec : Codec Key) (store : Store σ)
    (g : gormBinding σ) (doc : ControllerBinding Key) (db : σ) (g1 : gormBinding σ) (db1 : σ)
    (h : g.Bind codec store (some doc) db = .returned ((g1, db1), none)) :
    ∃ realmBytes docBytes,
      codec.marshalRealm doc.RealmDescriptor = .ok realmBytes ∧
      codec.marshalControllerBinding (some doc) = .ok docBytes ∧
      (store.Save (g.togormColumns.written doc realmBytes docBytes) db).2 = none ∧
      (g1, db1) = gormBinding.runHook
        { g with togormColumns := g.togormColumns.written doc realmBytes docBytes }
        g.postBindFunc (store.Save (g.togormColumns.written doc realmBytes docBytes) db).1 := by
  unfold gormBinding.Bind at h
  simp only [gormBinding.setRealm, gormBinding.setControllerBinding, gormBinding.setAdminRoles,
    gormBinding.save] at h
  cases hR : codec.marshalRealm doc.RealmDescriptor with
  | error err => simp [hR] at h
  | ok realmBytes =>
    cases hC : codec.marshalControllerBinding (some doc) with
    | error err => simp [hR, hC] at h
    | ok docBytes =>
      simp only [hR, hC] at h
      refine ⟨realmBytes, docBytes, rfl, rfl, ?_⟩
      split at h
      · simp at h
      · next db2 hS =>
        simp only [Run.returned.injEq, Prod.mk.injEq, and_true] at h
        have hS' : store.Save (g.togormColumns.written doc realmBytes docBytes) db
            = (db2, none) := hS
        rw [hS']
        exact ⟨rfl, h.symm⟩

theorem gorm_bind_json_columns {Key σ : Type} (codec : Codec Key) (store : Store σ)
    (g : gormBinding σ) (doc : ControllerBinding Key) (db : σ) (g1 : gormBinding σ) (db1 : σ)
    (hhook : ∀ f, g.postBindFunc = some f →
      ∀ c d, (f (c, d)).1.boundColumns = c.boundColumns)
    (h : g.Bind codec store (some doc) db = .returned ((g1, db1), none)) :
    ∃ realmBytes docBytes,
      codec.marshalRealm doc.RealmDescriptor = .ok realmBytes ∧
      codec.marshalControllerBinding (some doc) = .ok docBytes ∧
      g1.DBrealm = realmBytes ∧ g1.DBbinding = docBytes := by
  obtain ⟨realmBytes, docBytes, hR, hC, _, hrun⟩ :=
    gorm_bind_returned codec store g doc db g1 db1 h
  have hcols := gorm_runHook_columns
    { g with togormColumns := g.togormColumns.written doc realmBytes docBytes }
    g.postBindFunc (store.Save (g.togormColumns.written doc realmBytes docBytes) db).1 hhook
  rw [← hrun] at hcols
  simp only [gormColumns.boundColumns, gormColumns.written, List.cons.injEq, and_true] at hcols
  exact ⟨realmBytes, docBytes, hR, hC, hcols.2.2.2.1, hcols.2.2.2.2⟩

theorem demoJSON_readsBack : demoJSON.ReadsBack where
  realm_present := by
    intro r bytes h
    by_cases hr : r = { Name := "example.com", PublicKey := "R" }
    · subst hr
      have hb : bytes = "realm.json" := by
        simpa [demoJSON, demoCodec, List.find?] using h.symm
      subst hb
      exact ⟨_, rfl⟩
    · have hr2 : ¬ ({ Name := "example.com", PublicKey := "R" } : RealmDescriptor String) = r :=
        fun hx => hr hx.symm
      simp [demoJSON, demoCodec, List.find?, hr2] at h
  realm_absent := by
    intro bytes h
    have hb : bytes = "null" := by
      simpa [demoJSON, demoCodec, List.find?] using h.symm
    subst hb
    rfl
  document_present := by
    intro d bytes h
    by_cases h1 : demoDoc = d
    · subst h1
      have hb : bytes = "doc.json" := by
        simpa [demoJSON, demoCodec, List.find?] using h.symm
      subst hb
      exact ⟨_, rfl⟩
    · by_cases h2 : demoSparseDoc = d
      · subst h2
        have hb : bytes = "sparse.json" := by
          have hval : demoJSON.marshalControllerBinding (some demoSparseDoc)
              = .ok "sparse.json" := rfl
          rw [hval] at h
          exact (Except.ok.inj h).symm
        subst hb
        exact ⟨_, rfl⟩
      · by_cases h3 : demoCommaDoc = d
        · subst h3
          have hb : bytes = "comma.json" := by
            have hval : demoJSON.marshalControllerBinding (some demoCommaDoc)
                = .ok "comma.json" := rfl
            rw [hval] at h
            exact (Except.ok.inj h).symm
          subst hb
          exact ⟨_, rfl⟩
        · simp [demoJSON, demoCodec, List.find?, h1, h2, h3] at h

theorem gorm_list_eq_nil_iff (column : String) :
    (if column = "" then [] else stringsSplit column ',') = [] ↔ column = "" := by
  by_cases h : column = ""
  · simp [h]
  · simp [h, stringsSplit_ne_nil]

/-- C10, as stated, fails at a fresh in-memory binding without hooks bound
with the document of the repository's unbind test, which holds one mandate and
nothing else: `Bind` succeeds, and afterwards the certificate, the admin roles
and the realm are empty while the mandates and the controller-binding document
are populated. -/
theorem bound_state_mixed_counterexample :
    ((demoMock none none none).Bind (some demoSparseDoc)).2 = none ∧
    ¬ (((demoMock none none none).Bind (some demoSparseDoc)).1.boundState.allEmpty ∨
       ((demoMock none none none).Bind (some demoSparseDoc)).1.boundState.allPopulated) ∧
    ((demoMock none none none).Bind (some demoSparseDoc)).1.Certificate = "" ∧
    ((demoMock none none none).Bind (some demoSparseDoc)).1.Mandates = ["def"] := by
  refine ⟨rfl, ?_, rfl, rfl⟩
  unfold BoundState.allEmpty BoundState.allPopulated
  decide

/-- C10, amended. For a Binding whose hooks leave the bound state as they
find it: after every successful `Unbind` (in-memory or gorm) the bound-state
fields are all empty; after `Bind(doc)` on the in-memory binding they are not
all empty, and they are all populated exactly when `doc` populates its
certificate, mandates, admin roles and realm; after a successful `Bind(doc)` on
the gorm binding the certificate is that of `doc`, and `Mandates()` and
`AdminRoles()` are empty exactly when the comma-joined list of `doc` is the
empty string; and when moreover the JSON codec reads back what it wrote, the
bound-state fields of the gorm binding are not all empty after a successful
`Bind(doc)`, and they are all populated exactly when the certificate of `doc`
and its comma-joined mandates and admin roles are non-empty strings and `doc`
has a realm. -/
theorem bound_state_after_bind_unbind (Key σ : Type) :
    (∀ m : mockBinding Key,
      (∀ f, m.postUnbindFunc = some f → ∀ s, (f s).binding = s.binding) →
      (m.Unbind).2 = none ∧ (m.Unbind).1.boundState.allEmpty) ∧
    (∀ (codec : Codec Key) (store : Store σ) (g : gormBinding σ) (db : σ),
      (∀ f, g.postUnbindFunc = some f →
        ∀ c d, (f (c, d)).1.boundColumns = c.boundColumns) →
      (g.Unbind store db).2 = none →
      ((g.Unbind store db).1.1.boundState codec).allEmpty) ∧
    (∀ (m : mockBinding Key) (doc : ControllerBinding Key),
      (∀ f, m.postBindFunc = some f → ∀ s, (f s).binding = s.binding) →
      (m.Bind (some doc)).2 = none ∧
      ¬ (m.Bind (some doc)).1.boundState.allEmpty ∧
      ((m.Bind (some doc)).1.boundState.allPopulated ↔
        doc.ControllerCertificate ≠ "" ∧ doc.Mandates ≠ [] ∧ doc.AdminRoles ≠ [] ∧
          doc.RealmDescriptor ≠ none)) ∧
    (∀ (codec : Codec Key) (store : Store σ) (g : gormBinding σ) (doc : ControllerBinding Key)
        (db : σ) (g1 : gormBinding σ) (db1 : σ),
      (∀ f, g.postBindFunc = some f →
        ∀ c d, (f (c, d)).1.boundColumns = c.boundColumns) →
      g.Bind codec store (some doc) db = .returned ((g1, db1), none) →
      g1.Certificate = doc.ControllerCertificate ∧
      (g1.Mandates = [] ↔ stringsJoin doc.Mandates "," = "") ∧
      (g1.AdminRoles = [] ↔ stringsJoin doc.AdminRoles "," = "")) ∧
    (∀ (codec : Codec Key) (store : Store σ) (g : gormBinding σ) (doc : ControllerBinding Key)
        (db : σ) (g1 : gormBinding σ) (db1 : σ),
      codec.ReadsBack →
      (∀ f, g.postBindFunc = some f →
        ∀ c d, (f (c, d)).1.boundColumns = c.boundColumns) →
      g.Bind codec store (some doc) db = .returned ((g1, db1), none) →
      ¬ (g1.boundState codec).allEmpty ∧
      ((g1.boundState codec).allPopulated ↔
        doc.ControllerCertificate ≠ "" ∧ stringsJoin doc.Mandates "," ≠ "" ∧
          stringsJoin doc.AdminRoles "," ≠ "" ∧ doc.RealmDescriptor ≠ none)) := by
  refine ⟨?_, ?_, ?_, ?_, ?_⟩
  · intro m hhook
    have hb := mock_unbind_binding m hhook
    refine ⟨rfl, ?_⟩
    simp [BoundState.allEmpty, mockBinding.boundState, mockBinding.Certificate,
      mockBinding.AdminRoles, mockBinding.Mandates, mockBinding.Realm,
      mockBinding.ControllerBinding, hb]
  · intro codec store g db hhook _
    exact gorm_boundState_of_cleared codec (g.Unbind store db).1.1
      (gorm_unbind_columns store g db hhook)
  · intro m doc hhook
    have hb := mock_bind_binding m (some doc) hhook
    refine ⟨rfl, ?_, ?_⟩
    · simp [BoundState.allEmpty, mockBinding.boundState, mockBinding.ControllerBinding, hb]
    · simp [BoundState.allPopulated, mockBinding.boundState, mockBinding.Certificate,
        mockBinding.AdminRoles, mockBinding.Mandates, mockBinding.Realm,
        mockBinding.ControllerBinding, hb]
  · intro codec store g doc db g1 db1 hhook h
    obtain ⟨h1, h2, h3⟩ := gorm_bind_columns codec store g doc db g1 db1 hhook h
    refine ⟨h1, ?_, ?_⟩
    · unfold gormBinding.Mandates
      rw [gorm_list_eq_nil_iff, h2]
    · unfold gormBinding.AdminRoles
      rw [gorm_list_eq_nil_iff, h3]
  · intro codec store g doc db g1 db1 hrb hhook h
    obtain ⟨h1, h2, h3⟩ := gorm_bind_columns codec store g doc db g1 db1 hhook h
    obtain ⟨realmBytes, docBytes, hR, hC, h4, h5⟩ :=
      gorm_bind_json_columns codec store g doc db g1 db1 hhook h
    obtain ⟨d1, hd⟩ := hrb.document_present doc docBytes hC
    have hcb : g1.ControllerBinding codec = some d1 := by
      simp only [gormBinding.ControllerBinding, h5, hd]
    have hcert : g1.Certificate = doc.ControllerCertificate := h1
    have hm : g1.Mandates = [] ↔ stringsJoin doc.Mandates "," = "" := by
      unfold gormBinding.Mandates
      rw [gorm_list_eq_nil_iff, h2]
    have ha : g1.AdminRoles = [] ↔ stringsJoin doc.AdminRoles "," = "" := by
      unfold gormBinding.AdminRoles
      rw [gorm_list_eq_nil_iff, h3]
    have hrealm : g1.Realm codec = none ↔ doc.RealmDescriptor = none := by
      cases hdoc : doc.RealmDescriptor with
      | none =>
        rw [hdoc] at hR
        have hnull := hrb.realm_absent realmBytes hR
        simp only [gormBinding.Realm, h4, hnull]
      | some r =>
        rw [hdoc] at hR
        obtain ⟨r1, hr1⟩ := hrb.realm_present r realmBytes hR
        simp only [gormBinding.Realm, h4, hr1]
        simp
    refine ⟨?_, ?_⟩
    · intro hall
      have hnone : g1.ControllerBinding codec = none := hall.2.2.2.2
      rw [hcb] at hnone
      cases hnone
    · simp only [BoundState.allPopulated, gormBinding.boundState, ne_eq, hcert, hm, ha, hrealm,
        hcb]
      simp

/-- C10, amended, at the demonstration bindings: after `Unbind` the in-memory
and the relational binding bound with `demoDoc` have an empty bound state;
after `Bind(demoDoc)`, which populates every field, the in-memory binding has a
populated bound state, the relational binding holds the certificate and
non-empty lists and, its codec reading back what it wrote, has a populated
bound state as well. -/
theorem bound_state_after_bind_unbind_witness :
    (((demoMock (some demoDoc) none none).Unbind).2 = none ∧
      ((demoMock (some demoDoc) none none).Unbind).1.boundState.allEmpty) ∧
    ((demoGormBound.Unbind tableStore [demoGormBound.togormColumns]).1.1.boundState
      demoJSON).allEmpty ∧
    ((demoMock none none none).Bind (some demoDoc)).1.boundState.allPopulated ∧
    (demoGormBound.Certificate = demoDoc.ControllerCertificate ∧
      (demoGormBound.Mandates = [] ↔ stringsJoin demoDoc.Mandates "," = "") ∧
      (demoGormBound.AdminRoles = [] ↔ stringsJoin demoDoc.AdminRoles "," = "")) ∧
    (demoGorm.Bind demoJSON tableStore (some demoDoc) []
        = .returned ((demoGormBound, [demoGormBound.togormColumns]), none) ∧
      ¬ (demoGormBound.boundState demoJSON).allEmpty ∧
      (demoGormBound.boundState demoJSON).allPopulated) :=
  ⟨(bound_state_after_bind_unbind String (List gormColumns)).1
      (demoMock (some demoDoc) none none) (by intro f hf; cases hf),
   (bound_state_after_bind_unbind String (List gormColumns)).2.1 demoJSON tableStore
      demoGormBound [demoGormBound.togormColumns] (by intro f hf; cases hf) rfl,
   ((bound_state_after_bind_unbind String (List gormColumns)).2.2.1
      (demoMock none none none) demoDoc (by intro f hf; cases hf)).2.2.mpr (by decide),
   (bound_state_after_bind_unbind String (List gormColumns)).2.2.2.1 demoJSON tableStore
      demoGorm demoDoc [] demoGormBound [demoGormBound.togormColumns]
      (by intro f hf; cases hf) rfl,
   rfl,
   ((bound_state_after_bind_unbind String (List gormColumns)).2.2.2.2 demoJSON tableStore
      demoGorm demoDoc [] demoGormBound [demoGormBound.togormColumns] demoJSON_readsBack
      (by intro f hf; cases hf) rfl).1,
   ((bound_state_after_bind_unbind String (List gormColumns)).2.2.2.2 demoJSON tableStore
      demoGorm demoDoc [] demoGormBound [demoGormBound.togormColumns] demoJSON_readsBack
      (by intro f hf; cases hf) rfl).2.mpr (by decide)⟩

/-! ## The bindings table -/

theorem tableStore_find_replace (row : gormColumns) (db : List gormColumns)
    (h : db.any (fun r => decide (r.DBid = row.DBid)) = true) :
    (db.map (fun r => if r.DBid = row.DBid then row else r)).find?
        (fun r => decide (r.DBid = row.DBid)) = some row := by
  induction db with
  | nil => simp at h
  | cons a rest ih =>
    by_cases ha : a.DBid = row.DBid
    · simp [List.find?, ha]
    · have hrest : rest.any (fun r => decide (r.DBid = row.DBid)) = true := by
        simpa [ha] using h
      simp only [List.map_cons, ha, if_false, List.find?, decide_False]
      exact ih hrest

theorem tableStore_find_append (row : gormColumns) (db : List gormColumns)
    (h : db.any (fun r => decide (r.DBid = row.DBid)) = false) :
    (db ++ [row]).find? (fun r => decide (r.DBid = row.DBid)) = some row := by
  induction db with
  | nil => simp [List.find?]
  | cons a rest ih =>
    have ha : ¬ a.DBid = row.DBid := by
      intro hx; simp [hx] at h
    have hrest : rest.any (fun r => decide (r.DBid = row.DBid)) = false := by
      simpa [ha] using h
    simp only [List.cons_append, List.find?, ha, decide_False]
    exact ih hrest

theorem tableStore_find_filter (id : String) (db : List gormColumns) :
    (db.filter (fun r => decide (r.DBid ≠ id))).find? (fun r => decide (r.DBid = id)) = none := by
  induction db with
  | nil => rfl
  | cons a rest ih =>
    by_cases ha : a.DBid = id
    · simp [List.filter, ha, ih]
    · simp [List.filter, ha, List.find?, ih]

theorem tableStore_working : tableStore.Working where
  save_ok := by
    intro row db
    simp only [tableStore]
    split
    · rfl
    · split <;> rfl
  first_save := by
    intro row db hid
    simp only [tableStore, hid, if_false]
    cases h : db.any (fun r => decide (r.DBid = row.DBid))
    · simp only [Bool.false_eq_true, if_false, tableStore_find_append row db h]
    · simp only [if_true, tableStore_find_replace row db h]
  saved_key := by
    intro row db hid
    simp only [tableStore, hid, if_false]
  delete_ok := by
    intro id db
    simp only [tableStore]
    split <;> rfl
  first_delete := by
    intro id db
    simp only [tableStore, ErrRecordNotFound]
    by_cases hid : id = ""
    · simp only [hid, if_true]
    · simp only [hid, if_false, tableStore_find_filter]

/-! ## C11: `New`, then `Get`, then `New` again -/

/-- C11 fails for the gorm registry at the blank id. On an empty bindings
table `New("")` succeeds, but the Binding it returns has the `ID()` that the
database generated (the one-character string of code 1), not the blank one;
the following `Get("")` fails with
"record not found"; and a second `New("")` succeeds as well, adding a second
row, instead of failing with "Binding already exists". -/
theorem registry_new_blank_id_counterexample :
    (demoEmptyGorm.New tableStore "" "s3cret" []).2.1 = none ∧
    (demoEmptyGorm.New tableStore "" "s3cret" []).1.ID = "\x01" ∧
    (demoEmptyGorm.New tableStore "" "s3cret" []).1.ID ≠ "" ∧
    (demoEmptyGorm.Get tableStore "" (demoEmptyGorm.New tableStore "" "s3cret" []).2.2).2
      = some "record not found" ∧
    (demoEmptyGorm.New tableStore "" "other"
        (demoEmptyGorm.New tableStore "" "s3cret" []).2.2).2.1 = none ∧
    (demoEmptyGorm.New tableStore "" "other"
        (demoEmptyGorm.New tableStore "" "s3cret" []).2.2).2.2
      ≠ (demoEmptyGorm.New tableStore "" "s3cret" []).2.2 := by
  refine ⟨rfl, by decide, by decide, rfl, rfl, by decide⟩

/-- C11, amended. For every in-memory registry and every id not yet present,
and for every gorm registry over a bindings table in working order and every
non-blank id not yet present: `New(id)` succeeds and returns a Binding whose
`ID()` is `id`; an immediately following `Get(id)` succeeds and returns a
Binding whose `ID()` is `id`; a second `New(id)` fails with "Binding already
exists" and leaves the registry as it was, so that `Get(id)` still returns the
first Binding, with its secret. -/
theorem registry_new_get_new (Key σ : Type) :
    (∀ (s : mockBindingService Key) (id secret secret2 : String), s.bindings id = none →
      (s.New id secret).2.2 = none ∧ (s.New id secret).2.1.ID = id ∧
      (∃ b, (s.New id secret).1.Get id = .ok b ∧ b.ID = id ∧ b.Secret = secret) ∧
      ((s.New id secret).1.New id secret2).2.2 = some "Binding already exists" ∧
      ((s.New id secret).1.New id secret2).1 = (s.New id secret).1) ∧
    (∀ (store : Store σ) (s : gormBindingService σ) (id secret secret2 : String) (db : σ),
      store.Working → id ≠ "" → (∃ err, store.First id db = .error err) →
      (s.New store id secret db).2.1 = none ∧ (s.New store id secret db).1.ID = id ∧
      ((s.Get store id (s.New store id secret db).2.2).2 = none ∧
        (s.Get store id (s.New store id secret db).2.2).1.ID = id ∧
        (s.Get store id (s.New store id secret db).2.2).1.Secret = secret) ∧
      (s.New store id secret2 (s.New store id secret db).2.2).2.1
        = some "Binding already exists" ∧
      (s.New store id secret2 (s.New store id secret db).2.2).2.2
        = (s.New store id secret db).2.2) := by
  constructor
  · intro s id secret secret2 hnone
    simp [mockBindingService.New, mockBindingService.Get, hnone, newMockBinding,
      mockBinding.ID, mockBinding.Secret]
  · rintro store s id secret secret2 db hw hne ⟨err, habsent⟩
    have hkey : store.SavedKey
        (newGormBinding id secret s.postBindFunc s.postUnbindFunc).togormColumns db = id :=
      hw.saved_key (newGormBinding id secret s.postBindFunc s.postUnbindFunc).togormColumns db hne
    have hnew : s.New store id secret db
        = ({ newGormBinding id secret s.postBindFunc s.postUnbindFunc with
              DBid := store.SavedKey
                (newGormBinding id secret s.postBindFunc s.postUnbindFunc).togormColumns db },
           (store.Save (newGormBinding id secret s.postBindFunc s.postUnbindFunc).togormColumns
              db).2,
           (store.Save (newGormBinding id secret s.postBindFunc s.postUnbindFunc).togormColumns
              db).1) := by
      simp [gormBindingService.New, gormBindingService.Get, habsent]
    have hfirst := hw.first_save
      (newGormBinding id secret s.postBindFunc s.postUnbindFunc).togormColumns db hne
    have hid : (newGormBinding id secret s.postBindFunc s.postUnbindFunc).DBid = id := rfl
    rw [hid] at hfirst
    have hget : s.Get store id
        (store.Save (newGormBinding id secret s.postBindFunc s.postUnbindFunc).togormColumns
          db).1
        = ({ (newGormBinding id secret s.postBindFunc s.postUnbindFunc).togormColumns with
              postBindFunc := none, postUnbindFunc := none }, none) := by
      simp only [gormBindingService.Get, hfirst]
    rw [hnew]
    refine ⟨hw.save_ok _ _, hkey, ?_, ?_, ?_⟩
    · rw [hget]
      exact ⟨rfl, rfl, rfl⟩
    · simp only [gormBindingService.New, hget]
    · simp only [gormBindingService.New, hget]

/-- C11 at a fresh in-memory registry and at a gorm registry over an empty
table, for the id `b1`. -/
theorem registry_new_get_new_witness :
    ((demoEmptyMock.New "b1" "s3cret").2.2 = (none : Option String) ∧
      (demoEmptyMock.New "b1" "s3cret").2.1.ID = "b1" ∧
      (∃ b : mockBinding String, (demoEmptyMock.New "b1" "s3cret").1.Get "b1" = .ok b ∧
        b.ID = "b1" ∧ b.Secret = "s3cret") ∧
      ((demoEmptyMock.New "b1" "s3cret").1.New "b1" "other").2.2
        = some "Binding already exists" ∧
      ((demoEmptyMock.New "b1" "s3cret").1.New "b1" "other").1
        = (demoEmptyMock.New "b1" "s3cret").1) ∧
    ((demoEmptyGorm.New tableStore "b1" "s3cret" []).2.1 = none ∧
      (demoEmptyGorm.New tableStore "b1" "s3cret" []).1.ID = "b1" ∧
      ((demoEmptyGorm.Get tableStore "b1"
          (demoEmptyGorm.New tableStore "b1" "s3cret" []).2.2).2 = none ∧
        (demoEmptyGorm.Get tableStore "b1"
          (demoEmptyGorm.New tableStore "b1" "s3cret" []).2.2).1.ID = "b1" ∧
        (demoEmptyGorm.Get tableStore "b1"
          (demoEmptyGorm.New tableStore "b1" "s3cret" []).2.2).1.Secret = "s3cret") ∧
      (demoEmptyGorm.New tableStore "b1" "other"
          (demoEmptyGorm.New tableStore "b1" "s3cret" []).2.2).2.1
        = some "Binding already exists" ∧
      (demoEmptyGorm.New tableStore "b1" "other"
          (demoEmptyGorm.New tableStore "b1" "s3cret" []).2.2).2.2
        = (demoEmptyGorm.New tableStore "b1" "s3cret" []).2.2) :=
  ⟨(registry_new_get_new String (List gormColumns)).1 demoEmptyMock "b1" "s3cret"
      "other" rfl,
   (registry_new_get_new String (List gormColumns)).2 tableStore demoEmptyGorm "b1"
      "s3cret" "other" [] tableStore_working (by decide) ⟨"record not found", rfl⟩⟩

/-! ## C12: `Delete` -/

/-- C12. For every in-memory registry, and every gorm registry over a
bindings table in working order, and every id: when the id is absent,
`Delete(id)` fails with the not-found error of the lookup ("Binding not found",
and for gorm the error of `First`) and changes nothing; when the id is present,
`Delete(id)` succeeds and a following `Get(id)` fails with the not-found
error. -/
theorem registry_delete (Key σ : Type) :
    (∀ (s : mockBindingService Key) (id : String),
      (s.bindings id = none →
        (s.Delete id).2 = some "Binding not found" ∧ (s.Delete id).1 = s) ∧
      (∀ b, s.bindings id = some b →
        (s.Delete id).2 = none ∧ (s.Delete id).1.Get id = .error "Binding not found")) ∧
    (∀ (store : Store σ) (s : gormBindingService σ) (id : String) (db : σ), store.Working →
      (∀ err, store.First id db = .error err →
        (s.Delete store id db).2 = some err ∧ (s.Delete store id db).1 = db) ∧
      (∀ row, store.First id db = .ok row →
        (s.Delete store id db).2 = none ∧
        (s.Get store id (s.Delete store id db).1).2 = some ErrRecordNotFound)) := by
  constructor
  · intro s id
    constructor
    · intro h
      simp [mockBindingService.Delete, h]
    · intro b h
      simp [mockBindingService.Delete, mockBindingService.Get, h]
  · intro store s id db hw
    constructor
    · intro err h
      simp [gormBindingService.Delete, gormBindingService.Get, h]
    · intro row h
      simp [gormBindingService.Delete, gormBindingService.Get, h, hw.delete_ok,
        hw.first_delete]

/-- C12 at the in-memory registry `demoMockService` and at a gorm registry
whose table holds the row of `demoGorm`: deleting the absent `b2` fails and
changes nothing, deleting `b1` succeeds and `b1` is then not found. -/
theorem registry_delete_witness :
    ((demoMockService.Delete "b2").2 = some "Binding not found" ∧
      (demoMockService.Delete "b2").1 = demoMockService) ∧
    ((demoMockService.Delete "b1").2 = none ∧
      (demoMockService.Delete "b1").1.Get "b1" = .error "Binding not found") ∧
    ((demoEmptyGorm.Delete tableStore "b2" [demoGorm.togormColumns]).2
        = some "record not found" ∧
      (demoEmptyGorm.Delete tableStore "b2" [demoGorm.togormColumns]).1
        = [demoGorm.togormColumns]) ∧
    ((demoEmptyGorm.Delete tableStore "b1" [demoGorm.togormColumns]).2 = none ∧
      (demoEmptyGorm.Get tableStore "b1"
        (demoEmptyGorm.Delete tableStore "b1" [demoGorm.togormColumns]).1).2
        = some ErrRecordNotFound) :=
  ⟨((registry_delete String (List gormColumns)).1 demoMockService "b2").1 rfl,
   ((registry_delete String (List gormColumns)).1 demoMockService "b1").2
      (newMockBinding "b1" "s3cret" none none) rfl,
   ((registry_delete String (List gormColumns)).2 tableStore demoEmptyGorm "b2"
      [demoGorm.togormColumns] tableStore_working).1 "record not found" rfl,
   ((registry_delete String (List gormColumns)).2 tableStore demoEmptyGorm "b1"
      [demoGorm.togormColumns] tableStore_working).2 demoGorm.togormColumns rfl⟩

/-! ## C13: the post-bind hook -/

theorem mock_bind_with_hook {Key : Type} (m : mockBinding Key) (f : mockFields Key → mockFields Key)
    (c : Option (ControllerBinding Key)) (hf : m.postBindFunc = some f) :
    m.Bind c = ({ m with tomockFields := f { m.tomockFields with binding := c } }, none) := by
  simp [mockBinding.Bind, mockBinding.runHook, hf]

/-- C14 (the code departs from it). For every gorm Binding with a post-unbind
hook `f`, `Unbind()` invokes `f` exactly once, and it does so before any save:
`f` is handed the cleared columns together with the database as it was when
`Unbind` was called, and the one save of `Unbind` comes after it, on what `f`
returned. -/
theorem gorm_unbind_hook_before_save {σ : Type} (store : Store σ) (g : gormBinding σ) (db : σ)
    (f : gormColumns × σ → gormColumns × σ) (hf : g.postUnbindFunc = some f) :
    (g.Unbind store db).1.1.togormColumns = (f (g.togormColumns.cleared, db)).1 ∧
    (g.Unbind store db).1.2
      = (store.Save (f (g.togormColumns.cleared, db)).1 (f (g.togormColumns.cleared, db)).2).1 ∧
    (g.Unbind store db).2
      = (store.Save (f (g.togormColumns.cleared, db)).1 (f (g.togormColumns.cleared, db)).2).2 := by
  simp [gormBinding.Unbind, gormBinding.runHook, gormBinding.save, hf, gormColumns.cleared]

/-- C14 at the Binding `demoGormObserved`, bound with certificate `abc` and
saved in the table so: during `Unbind()` the hook still finds the certificate
`abc` in the table, and records it as status. -/
theorem gorm_unbind_hook_before_save_witness :
    (demoEmptyGorm.Get tableStore "b1" [demoGormBound.togormColumns]).1.Certificate = "abc" ∧
    (demoGormObserved.Unbind tableStore [demoGormBound.togormColumns]).2 = none ∧
    (demoGormObserved.Unbind tableStore [demoGormBound.togormColumns]).1.1.Certificate = "" ∧
    (demoGormObserved.Unbind tableStore [demoGormBound.togormColumns]).1.1.Status = "abc" ∧
    ((demoGormObserved.Unbind tableStore [demoGormBound.togormColumns]).1.1.togormColumns
        = (gormHookRecordStored
            (demoGormObserved.togormColumns.cleared, [demoGormBound.togormColumns])).1 ∧
      (demoGormObserved.Unbind tableStore [demoGormBound.togormColumns]).1.2
        = (tableStore.Save
            (gormHookRecordStored
              (demoGormObserved.togormColumns.cleared, [demoGormBound.togormColumns])).1
            (gormHookRecordStored
              (demoGormObserved.togormColumns.cleared, [demoGormBound.togormColumns])).2).1 ∧
      (demoGormObserved.Unbind tableStore [demoGormBound.togormColumns]).2
        = (tableStore.Save
            (gormHookRecordStored
              (demoGormObserved.togormColumns.cleared, [demoGormBound.togormColumns])).1
            (gormHookRecordStored
              (demoGormObserved.togormColumns.cleared, [demoGormBound.togormColumns])).2).2) :=
  ⟨rfl, rfl, rfl, rfl,
   gorm_unbind_hook_before_save tableStore demoGormObserved [demoGormBound.togormColumns]
    gormHookRecordStored rfl⟩

/-! ## C15: hooks are captured when a Binding is created -/

theorem mock_unbind_with_hook {Key : Type} (m : mockBinding Key)
    (f : mockFields Key → mockFields Key) (hf : m.postUnbindFunc = some f) :
    m.Unbind = ({ m with tomockFields := f { m.tomockFields with binding := none } }, none) := by
  simp [mockBinding.Unbind, mockBinding.runHook, hf]

/-- C15, as stated, fails at the in-memory registry `demoRehookedMock`: the
Binding `b1` was created while `f1` (set the status to `f1`) was registered,
then `f2` (set the status to `f2`) was registered; a `Bind` and an `Unbind` on
the Binding that `Get` returns both leave the status `f1`: they invoke `f1`, not
`f2`. -/
theorem hook_replacement_counterexample :
    demoRehookedMock.postBindFunc = some (mockHookSetStatus "f2") ∧
    demoRehookedMock.postUnbindFunc = some (mockHookSetStatus "f2") ∧
    ∃ b, demoRehookedMock.Get "b1" = .ok b ∧
      (b.Bind (some demoDoc)).1.Status = "f1" ∧ (b.Unbind).1.Status = "f1" :=
  ⟨rfl, rfl, _, rfl, rfl, rfl⟩

/-- C15, amended. Setting a hook replaces the previous one for the Bindings
created afterwards. In the in-memory registry `SetPostBind` and
`SetPostUnbind` leave every Binding the registry holds as it is, with the hooks
it carries from its creation; a Binding that `New` returns after
`SetPostBind(f2)` invokes `f2` once in `Bind`, and one that `New` returns after
`SetPostUnbind(f2)` invokes `f2` once in `Unbind`, and no other hook. In the
gorm registry likewise the Binding that `New` returns after `SetPostBind(f2)`
(`SetPostUnbind(f2)`) carries `f2`, a `Bind` on it that succeeds hands the
written columns to `f2`, and an `Unbind` on it hands the cleared columns to
`f2`. -/
theorem hook_replacement (Key σ : Type) :
    (∀ (s : mockBindingService Key) (f : Option (mockFields Key → mockFields Key)),
      (s.SetPostBind f).bindings = s.bindings ∧ (s.SetPostUnbind f).bindings = s.bindings) ∧
    (∀ (s : mockBindingService Key) (f2 : mockFields Key → mockFields Key) (id secret : String)
        (c : Option (ControllerBinding Key)),
      s.bindings id = none →
      (((s.SetPostBind (some f2)).New id secret).2.1.Bind c).1.tomockFields
          = f2 { ((s.SetPostBind (some f2)).New id secret).2.1.tomockFields with binding := c } ∧
      (((s.SetPostUnbind (some f2)).New id secret).2.1.Unbind).1.tomockFields
          = f2 { ((s.SetPostUnbind (some f2)).New id secret).2.1.tomockFields with
                  binding := none }) ∧
    (∀ (store : Store σ) (s : gormBindingService σ) (f2 : gormColumns × σ → gormColumns × σ)
        (id secret : String) (db : σ),
      (∃ err, store.First id db = .error err) →
      ((s.SetPostBind (some f2)).New store id secret db).1.postBindFunc = some f2 ∧
      ((s.SetPostUnbind (some f2)).New store id secret db).1.postUnbindFunc = some f2) ∧
    (∀ (codec : Codec Key) (store : Store σ) (g : gormBinding σ)
        (f2 : gormColumns × σ → gormColumns × σ) (doc : ControllerBinding Key) (db : σ)
        (g1 : gormBinding σ) (db1 : σ),
      g.postBindFunc = some f2 →
      g.Bind codec store (some doc) db = .returned ((g1, db1), none) →
      ∃ realmBytes docBytes,
        (g1.togormColumns, db1)
          = f2 (g.togormColumns.written doc realmBytes docBytes,
                (store.Save (g.togormColumns.written doc realmBytes docBytes) db).1)) ∧
    (∀ (store : Store σ) (g : gormBinding σ) (f2 : gormColumns × σ → gormColumns × σ) (db : σ),
      g.postUnbindFunc = some f2 →
      (g.Unbind store db).1.1.togormColumns = (f2 (g.togormColumns.cleared, db)).1) := by
  refine ⟨?_, ?_, ?_, ?_, ?_⟩
  · intro s f
    exact ⟨rfl, rfl⟩
  · intro s f2 id secret c habsent
    have h1 : ((s.SetPostBind (some f2)).New id secret).2.1.postBindFunc = some f2 := by
      simp [mockBindingService.New, mockBindingService.SetPostBind, habsent, newMockBinding]
    have h2 : ((s.SetPostUnbind (some f2)).New id secret).2.1.postUnbindFunc = some f2 := by
      simp [mockBindingService.New, mockBindingService.SetPostUnbind, habsent, newMockBinding]
    rw [mock_bind_with_hook _ f2 c h1, mock_unbind_with_hook _ f2 h2]
    exact ⟨rfl, rfl⟩
  · rintro store s f2 id secret db ⟨err, habsent⟩
    simp [gormBindingService.New, gormBindingService.Get, gormBindingService.SetPostBind,
      gormBindingService.SetPostUnbind, habsent, newGormBinding]
  · intro codec store g f2 doc db g1 db1 hf h
    obtain ⟨realmBytes, docBytes, _, _, _, hrun⟩ :=
      gorm_bind_returned codec store g doc db g1 db1 h
    refine ⟨realmBytes, docBytes, ?_⟩
    simp only [gormBinding.runHook, hf, Prod.mk.injEq] at hrun
    rw [hrun.1, hrun.2]
  · intro store g f2 db hf
    simp [gormBinding.Unbind, gormBinding.runHook, gormBinding.save, hf, gormColumns.cleared]

/-- C15, amended, at the demonstration registries: in `demoHookedMock` (the
hook `true` registered) registering `f2` leaves the held Bindings alone and a
Binding `b2` created afterwards runs `f2`; in the gorm registry the Binding
created after registering `f2` carries it, `Bind(demoDoc)` on the Binding of
`demoHookedGorm` hands the written columns to its hook, and `Unbind` on
`demoGormObserved` hands the cleared columns to its hook. -/
theorem hook_replacement_witness :
    ((demoHookedMock.SetPostBind (some (mockHookSetStatus "f2"))).bindings
        = demoHookedMock.bindings ∧
      (demoHookedMock.SetPostUnbind (some (mockHookSetStatus "f2"))).bindings
        = demoHookedMock.bindings) ∧
    ((((demoHookedMock.SetPostBind (some (mockHookSetStatus "f2"))).New "b2" "s").2.1.Bind
          (some demoDoc)).1.tomockFields
        = mockHookSetStatus "f2"
            { ((demoHookedMock.SetPostBind (some (mockHookSetStatus "f2"))).New "b2"
                "s").2.1.tomockFields with binding := some demoDoc } ∧
      (((demoHookedMock.SetPostUnbind (some (mockHookSetStatus "f2"))).New "b2"
          "s").2.1.Unbind).1.tomockFields
        = mockHookSetStatus "f2"
            { ((demoHookedMock.SetPostUnbind (some (mockHookSetStatus "f2"))).New "b2"
                "s").2.1.tomockFields with binding := none }) ∧
    (((demoHookedGorm.SetPostBind (some (gormHookSetStatus tableStore "f2"))).New tableStore
          "b1" "s3cret" []).1.postBindFunc = some (gormHookSetStatus tableStore "f2") ∧
      ((demoHookedGorm.SetPostUnbind (some (gormHookSetStatus tableStore "f2"))).New tableStore
          "b1" "s3cret" []).1.postUnbindFunc = some (gormHookSetStatus tableStore "f2")) ∧
    (∃ realmBytes docBytes,
      (demoHookedGormBound.togormColumns, [demoHookedGormBound.togormColumns])
        = gormHookSetStatus tableStore "true"
            ((demoHookedGorm.New tableStore "b1" "s3cret" []).1.togormColumns.written demoDoc
              realmBytes docBytes,
             (tableStore.Save
              ((demoHookedGorm.New tableStore "b1" "s3cret" []).1.togormColumns.written demoDoc
                realmBytes docBytes)
              (demoHookedGorm.New tableStore "b1" "s3cret" []).2.2).1)) ∧
    (demoGormObserved.Unbind tableStore [demoGormBound.togormColumns]).1.1.togormColumns
      = (gormHookRecordStored
          (demoGormObserved.togormColumns.cleared, [demoGormBound.togormColumns])).1 :=
  ⟨(hook_replacement String (List gormColumns)).1 demoHookedMock
      (some (mockHookSetStatus "f2")),
   (hook_replacement String (List gormColumns)).2.1 demoHookedMock (mockHookSetStatus "f2")
      "b2" "s" (some demoDoc) rfl,
   (hook_replacement String (List gormColumns)).2.2.1 tableStore demoHookedGorm
      (gormHookSetStatus tableStore "f2") "b1" "s3cret" [] ⟨"record not found", rfl⟩,
   (hook_replacement String (List gormColumns)).2.2.2.1 demoJSON tableStore
      (demoHookedGorm.New tableStore "b1" "s3cret" []).1 (gormHookSetStatus tableStore "true")
      demoDoc (demoHookedGorm.New tableStore "b1" "s3cret" []).2.2 demoHookedGormBound
      [demoHookedGormBound.togormColumns] rfl rfl,
   (hook_replacement String (List gormColumns)).2.2.2.2 tableStore demoGormObserved
      gormHookRecordStored [demoGormBound.togormColumns] rfl⟩

/-! ## C16: `Get` of the gorm registry returns a Binding without hooks -/

/-- C16 (the code departs from it). The Binding `gormBindingService.Get`
returns never carries a hook, whatever is registered on the registry. At the
registry `demoHookedGorm` (post-bind hook: set the status to `true`; the same
registered as post-unbind hook) with the Binding `b1` created: `Bind(demoDoc)`
on the Binding obtained from `Get("b1")` succeeds and saves the new state, and
the status is still empty, the hook has not run, whereas the same call on the
Binding `New` returned sets the status; `Unbind()` on the Binding obtained from
`Get("b1")` leaves the status empty as well. -/
theorem gorm_get_drops_hooks :
    (∀ (σ : Type) (store : Store σ) (s : gormBindingService σ) (id : String) (db : σ),
      (s.Get store id db).1.postBindFunc = none ∧ (s.Get store id db).1.postUnbindFunc = none) ∧
    demoHookedGorm.postBindFunc = some (gormHookSetStatus tableStore "true") ∧
    (demoHookedGorm.Get tableStore "b1" (demoHookedGorm.New tableStore "b1" "s3cret" []).2.2).2
      = none ∧
    (∃ g db,
      gormBinding.Bind demoJSON tableStore
          (demoHookedGorm.Get tableStore "b1"
            (demoHookedGorm.New tableStore "b1" "s3cret" []).2.2).1
          (some demoDoc) (demoHookedGorm.New tableStore "b1" "s3cret" []).2.2
        = .returned ((g, db), none) ∧
      g.Certificate = "abc" ∧ tableStore.First "b1" db = .ok g.togormColumns ∧
      g.Status = "") ∧
    (∃ g db,
      gormBinding.Bind demoJSON tableStore (demoHookedGorm.New tableStore "b1" "s3cret" []).1
          (some demoDoc) (demoHookedGorm.New tableStore "b1" "s3cret" []).2.2
        = .returned ((g, db), none) ∧
      g.Status = "true") ∧
    (gormBinding.Unbind tableStore
        ((demoHookedGorm.SetPostUnbind (some (gormHookSetStatus tableStore "true"))).Get
          tableStore "b1" [demoGormBound.togormColumns]).1
        [demoGormBound.togormColumns]).1.1.Status = "" := by
  refine ⟨?_, rfl, rfl, ⟨_, _, rfl, rfl, rfl, rfl⟩, ⟨_, _, rfl, rfl⟩, rfl⟩
  intro σ store s id db
  unfold gormBindingService.Get
  split <;> exact ⟨rfl, rfl⟩

/-! ## C17: a failing `GenerateKey` -/

/-- C17. For every Binding (in-memory or gorm) and every key-encryption-key
for which key generation or the encryption of the private key fails,
`GenerateKey` returns an error, `PublicKey()` returns the same value after the
call as before it, and nothing is saved: the key vault (and for gorm the
Binding and the database) is as it was. -/
theorem generateKey_failure (Key Priv Stored ν σ : Type) :
    (∀ (k : KeyEngine Key Priv Stored ν) (m : mockBinding Key) (kek : Bytes) (vault : ν),
      k.GenerationFails m.id kek →
      (m.GenerateKey k kek vault).2 ≠ none ∧
      (m.GenerateKey k kek vault).1.1.PublicKey = m.PublicKey ∧
      (m.GenerateKey k kek vault).1.2 = vault) ∧
    (∀ (k : KeyEngine Key Priv Stored ν) (rc : RowCodec Key) (store : Store σ)
        (g : gormBinding σ) (kek : Bytes) (db : σ) (vault : ν),
      k.GenerationFails g.DBid kek →
      (g.GenerateKey k rc store kek db vault).2 ≠ none ∧
      (g.GenerateKey k rc store kek db vault).1.1.PublicKey rc = g.PublicKey rc ∧
      (g.GenerateKey k rc store kek db vault).1.2.1 = db ∧
      (g.GenerateKey k rc store kek db vault).1.2.2 = vault) := by
  constructor
  · intro k m kek vault hfail
    rcases hfail with ⟨err, h1⟩ | ⟨key, err, h1, h2⟩ | ⟨key, pk, err, h1, h2, h3⟩
    · simp [mockBinding.GenerateKey, h1]
    · simp [mockBinding.GenerateKey, h1, h2]
    · simp [mockBinding.GenerateKey, h1, h2, h3]
  · intro k rc store g kek db vault hfail
    rcases hfail with ⟨err, h1⟩ | ⟨key, err, h1, h2⟩ | ⟨key, pk, err, h1, h2, h3⟩
    · simp [gormBinding.GenerateKey, h1]
    · simp [gormBinding.GenerateKey, h1, h2]
    · simp [gormBinding.GenerateKey, h1, h2, h3]

/-- C17 with the key-encryption-key `broken` of the repository's test, on the
in-memory and the relational binding `b1`: `GenerateKey` fails, `PublicKey()`
stays absent and the vault stays empty; with a key of 32 bytes the same call
succeeds. -/
theorem generateKey_failure_witness :
    (((demoMock none none none).GenerateKey demoKeyEngine demoBrokenKek []).2 ≠ none ∧
      ((demoMock none none none).GenerateKey demoKeyEngine demoBrokenKek []).1.1.PublicKey
        = (demoMock none none none).PublicKey ∧
      ((demoMock none none none).GenerateKey demoKeyEngine demoBrokenKek []).1.2 = []) ∧
    ((demoGorm.GenerateKey demoKeyEngine demoRowCodec tableStore demoBrokenKek
        [demoGorm.togormColumns] []).2 ≠ none ∧
      (demoGorm.GenerateKey demoKeyEngine demoRowCodec tableStore demoBrokenKek
        [demoGorm.togormColumns] []).1.1.PublicKey demoRowCodec
        = demoGorm.PublicKey demoRowCodec ∧
      (demoGorm.GenerateKey demoKeyEngine demoRowCodec tableStore demoBrokenKek
        [demoGorm.togormColumns] []).1.2.1 = [demoGorm.togormColumns] ∧
      (demoGorm.GenerateKey demoKeyEngine demoRowCodec tableStore demoBrokenKek
        [demoGorm.togormColumns] []).1.2.2 = []) ∧
    ((demoMock none none none).GenerateKey demoKeyEngine (List.replicate 32 0) []).2 = none ∧
    (demoGorm.GenerateKey demoKeyEngine demoRowCodec tableStore (List.replicate 32 0)
        [demoGorm.togormColumns] []).1.1.PublicKey demoRowCodec = some "PK" :=
  ⟨(generateKey_failure String Nat (String × Nat) (List (String × Nat)) (List gormColumns)).1
      demoKeyEngine (demoMock none none none) demoBrokenKek []
      (Or.inr (Or.inr ⟨7, "PK", "invalid key size", rfl, rfl, rfl⟩)),
   (generateKey_failure String Nat (String × Nat) (List (String × Nat)) (List gormColumns)).2
      demoKeyEngine demoRowCodec tableStore demoGorm demoBrokenKek [demoGorm.togormColumns] []
      (Or.inr (Or.inr ⟨7, "PK", "invalid key size", rfl, rfl, rfl⟩)),
   rfl, rfl⟩

/-! ## C18: what `Bind` and `Unbind` leave alone -/

/-- C19. For every registry (in-memory or gorm) and id, the Binding returned
by a successful `New(id)` is unbound: `PublicKey()` is absent, `Mandates()` and
`AdminRoles()` have length 0, `Certificate()` is the empty string and `Realm()`
is absent. -/
theorem new_binding_unbound (Key σ : Type) :
    (∀ (s : mockBindingService Key) (id secret : String), (s.New id secret).2.2 = none →
      (s.New id secret).2.1.PublicKey = none ∧ (s.New id secret).2.1.Mandates.length = 0 ∧
      (s.New id secret).2.1.AdminRoles.length = 0 ∧ (s.New id secret).2.1.Certificate = "" ∧
      (s.New id secret).2.1.Realm = none) ∧
    (∀ (codec : Codec Key) (rc : RowCodec Key) (store : Store σ) (s : gormBindingService σ)
        (id secret : String) (db : σ),
      (s.New store id secret db).2.1 = none →
      (s.New store id secret db).1.PublicKey rc = none ∧
      (s.New store id secret db).1.Mandates.length = 0 ∧
      (s.New store id secret db).1.AdminRoles.length = 0 ∧
      (s.New store id secret db).1.Certificate = "" ∧
      (s.New store id secret db).1.Realm codec = none) := by
  constructor
  · intro s id secret hok
    cases hb : s.bindings id with
    | some b => simp [mockBindingService.New, hb] at hok
    | none =>
      simp [mockBindingService.New, hb, newMockBinding, mockBinding.PublicKey,
        mockBinding.Mandates, mockBinding.AdminRoles, mockBinding.Certificate,
        mockBinding.Realm]
  · intro codec rc store s id secret db hok
    cases hF : store.First id db with
    | ok row => simp [gormBindingService.New, gormBindingService.Get, hF] at hok
    | error err =>
      have hb : (s.New store id secret db).1
          = { newGormBinding id secret s.postBindFunc s.postUnbindFunc with
              DBid := store.SavedKey
                (newGormBinding id secret s.postBindFunc s.postUnbindFunc).togormColumns db } := by
        simp [gormBindingService.New, gormBindingService.Get, hF]
      rw [hb]
      refine ⟨rc.UnmarshalKey_empty, rfl, rfl, rfl, ?_⟩
      obtain ⟨_, _, _, hrealm, _⟩ := gorm_boundState_of_cleared codec
        { newGormBinding id secret s.postBindFunc s.postUnbindFunc with
          DBid := store.SavedKey
            (newGormBinding id secret s.postBindFunc s.postUnbindFunc).togormColumns db } rfl
      exact hrealm

/-- C19 at a fresh in-memory registry and a fresh gorm registry over an empty
table, for the id `b1`. -/
theorem new_binding_unbound_witness :
    ((demoEmptyMock.New "b1" "s3cret").2.1.PublicKey = none ∧
      (demoEmptyMock.New "b1" "s3cret").2.1.Mandates.length = 0 ∧
      (demoEmptyMock.New "b1" "s3cret").2.1.AdminRoles.length = 0 ∧
      (demoEmptyMock.New "b1" "s3cret").2.1.Certificate = "" ∧
      (demoEmptyMock.New "b1" "s3cret").2.1.Realm = none) ∧
    ((demoEmptyGorm.New tableStore "b1" "s3cret" []).1.PublicKey demoRowCodec = none ∧
      (demoEmptyGorm.New tableStore "b1" "s3cret" []).1.Mandates.length = 0 ∧
      (demoEmptyGorm.New tableStore "b1" "s3cret" []).1.AdminRoles.length = 0 ∧
      (demoEmptyGorm.New tableStore "b1" "s3cret" []).1.Certificate = "" ∧
      (demoEmptyGorm.New tableStore "b1" "s3cret" []).1.Realm demoJSON = none) :=
  ⟨(new_binding_unbound String (List gormColumns)).1 demoEmptyMock "b1" "s3cret" rfl,
   (new_binding_unbound String (List gormColumns)).2 demoJSON demoRowCodec tableStore
      demoEmptyGorm "b1" "s3cret" [] rfl⟩

/-! ## C20: the binding callback -/

/-- `BindingCallback` at the in-memory binding `b1`: a wrong secret is
answered 403, an envelope that is not known to the engine 500, and the
envelope signed by the realm key 201, in which case the binding is bound. -/
theorem callback_examples :
    BindingCallback engineCallback demoJSON mockBinding.Secret mockBinding.bindRun
        { secretQuery := "guess", Body := .ok "\"payload\" signed by R" }
        (demoMock none none none)
      = .returned (demoMock none none none, .errorResponse 403 "Wrong secret") ∧
    BindingCallback engineCallback demoJSON mockBinding.Secret mockBinding.bindRun
        { secretQuery := "s3cret", Body := .ok "\"payload\" tampered" }
        (demoMock none none none)
      = .returned (demoMock none none none,
          .errorResponse 500 "failed to unmarshal JWS: not a signed envelope") ∧
    BindingCallback engineCallback demoJSON mockBinding.Secret mockBinding.bindRun
        { secretQuery := "s3cret", Body := .ok "\"payload\" signed by R" }
        (demoMock none none none)
      = .returned (demoMock (some demoDoc) none none, .emptyResponse 201) := by
  refine ⟨rfl, rfl, rfl⟩

/-! ## C21: the wrappers and an absent realm -/

/-- C21 (the code departs from it). For every Binding a request resolves to
whose `Realm()` is absent, and every list of mandates, both authorization
wrappers crash on `binding.Realm().PublicKey`: they return no response, neither
Forbidden nor that of the handler. -/
theorem wrappers_crash_on_absent_realm {Key JWS ρ : Type} (e : Engine Key JWS)
    (Get : String → Except String (Binding Key)) (binding : Binding Key)
    (hrealm : binding.Realm = none) :
    (∀ (h : standardAuthenticatedRequestWithBinding Key → ρ) (req : AuthenticatedRequest Key),
      req.bindingQuery ≠ "" → Get req.bindingQuery = .ok binding →
      addAuthenticatedBinding e Get h req = .panicked) ∧
    (∀ (h : standardActionRequestWithBinding Key → ρ) (req : ActionRequest Key)
        (bindID : String),
      actionBindID req = some bindID → Get bindID = .ok binding →
      addActionBinding e Get h req = .panicked) := by
  constructor
  · intro h req hq hGet
    simp [addAuthenticatedBinding, hq, hGet, authorize, hrealm]
  · intro h req bindID hid hGet
    simp [addActionBinding, hid, hGet, authorize, hrealm]

/-- C21 at the Binding `b1` as `New` leaves it, unbound, in the in-memory
registry and in the gorm registry: a request for `b1`, with a mandate signed by
`R` for `admin` or with no mandate, makes either wrapper crash. -/
theorem wrappers_crash_on_absent_realm_witness :
    (demoMockService.GetBinding "b1").map (fun b => b.Realm) = .ok none ∧
    addAuthenticatedBinding (demoEngine [] [] [] []) demoMockService.GetBinding
        demoAuthenticatedHandler { bindingQuery := "b1", Mandates := [demoMandate "R" "admin"] }
      = .panicked ∧
    addActionBinding (demoEngine [] [] [] [])
        (demoEmptyGorm.GetBinding demoJSON demoRowCodec tableStore
          (demoEmptyGorm.New tableStore "b1" "s3cret" []).2.2)
        demoActionHandler { bindingQuery := "b1", Mandates := [], ActionParams := none }
      = .panicked :=
  ⟨rfl,
   (wrappers_crash_on_absent_realm (demoEngine [] [] [] []) demoMockService.GetBinding
      (newMockBinding "b1" "s3cret" none none).asBinding rfl).1 demoAuthenticatedHandler
      { bindingQuery := "b1", Mandates := [demoMandate "R" "admin"] } (by decide) rfl,
   (wrappers_crash_on_absent_realm (demoEngine [] [] [] [])
      (demoEmptyGorm.GetBinding demoJSON demoRowCodec tableStore
        (demoEmptyGorm.New tableStore "b1" "s3cret" []).2.2)
      (gormBinding.asBinding demoJSON demoRowCodec
        (newGormBinding "b1" "s3cret" none none : gormBinding (List gormColumns))) rfl).2
      demoActionHandler { bindingQuery := "b1", Mandates := [], ActionParams := none }
      "b1" rfl rfl⟩

/-! ## C22: where the comma-joined storage is lossless -/

theorem splitChars_length (sep : Char) (cs : List Char) :
    (splitChars sep cs).length = cs.count sep + 1 := by
  induction cs with
  | nil => simp [splitChars]
  | cons c rest ih =>
    unfold splitChars
    by_cases h : c = sep
    · subst h
      simp [ih]
    · have hne : (c == sep) = false := by simpa using h
      simp only [h, if_false, List.count_cons, hne, Bool.false_eq_true, add_zero]
      cases hs : splitChars sep rest with
      | nil => exact absurd hs (splitChars_ne_nil sep rest)
      | cons piece pieces =>
        rw [hs] at ih
        simpa using ih

theorem splitChars_of_not_mem (sep : Char) (a : List Char) (h : sep ∉ a) :
    splitChars sep a = [a] := by
  induction a with
  | nil => simp [splitChars]
  | cons c rest ih =>
    have hc : ¬ c = sep := by
      intro hx; exact h (by simp [hx])
    have hrest : sep ∉ rest := by
      intro hx; exact h (by simp [hx])
    unfold splitChars
    simp [hc, ih hrest]

theorem splitChars_append_sep (sep : Char) (a rest : List Char) (h : sep ∉ a) :
    splitChars sep (a ++ sep :: rest) = a :: splitChars sep rest := by
  induction a with
  | nil => simp [splitChars]
  | cons c tail ih =>
    have hc : ¬ c = sep := by
      intro hx; exact h (by simp [hx])
    have htail : sep ∉ tail := by
      intro hx; exact h (by simp [hx])
    simp only [List.cons_append]
    rw [splitChars]
    simp [hc, ih htail]

theorem stringsJoin_cons_cons (a b : String) (rest : List String) (sep : String) :
    stringsJoin (a :: b :: rest) sep = a ++ sep ++ stringsJoin (b :: rest) sep := by
  simp [stringsJoin]

theorem stringsJoin_comma_data (a b : String) (rest : List String) :
    (stringsJoin (a :: b :: rest) ",").data
      = a.data ++ ',' :: (stringsJoin (b :: rest) ",").data := by
  rw [stringsJoin_cons_cons]
  simp [String.data_append]

theorem splitChars_join_of_commaFree (l : List String) (hne : l ≠ [])
    (hfree : ∀ s ∈ l, ',' ∉ s.data) :
    splitChars ',' (stringsJoin l ",").data = l.map String.data := by
  induction l with
  | nil => exact absurd rfl hne
  | cons a tail ih =>
    cases tail with
    | nil =>
      simp only [stringsJoin, List.map_cons, List.map_nil]
      exact splitChars_of_not_mem ',' a.data (hfree a (by simp))
    | cons b rest =>
      rw [stringsJoin_comma_data, splitChars_append_sep ',' a.data _ (hfree a (by simp)),
        ih (by simp) (fun s hs => hfree s (List.mem_cons_of_mem a hs))]
      rfl

theorem stringsJoin_count_comma (l : List String) (hne : l ≠ []) :
    (stringsJoin l ",").data.count ',' + 1
      = l.length + (l.map (fun s => s.data.count ',')).sum := by
  induction l with
  | nil => exact absurd rfl hne
  | cons a tail ih =>
    cases tail with
    | nil => simp [stringsJoin]; omega
    | cons b rest =>
      have ih1 := ih (by simp)
      rw [stringsJoin_comma_data]
      simp only [List.count_append, List.count_cons, beq_self_eq_true, if_true, List.length_cons,
        List.map_cons, List.sum_cons] at ih1 ⊢
      omega

theorem sum_count_pos_of_mem (l : List String) (s : String) (hs : s ∈ l)
    (hc : ',' ∈ s.data) : 1 ≤ (l.map (fun t => t.data.count ',')).sum := by
  induction l with
  | nil => simp at hs
  | cons a tail ih =>
    simp only [List.map_cons, List.sum_cons]
    rcases List.mem_cons.mp hs with rfl | ht
    · have : 0 < s.data.count ',' := List.count_pos_iff.mpr hc
      omega
    · have := ih ht
      omega

/-- Reading a comma-joined column back, as `Mandates()` and `AdminRoles()`
do, returns the list that was joined exactly when the list is comma-free and
is not `[""]`. -/
theorem readBack_join_iff (l : List String) :
    (if stringsJoin l "," = "" then [] else stringsSplit (stringsJoin l ",") ',') = l
      ↔ (∀ s ∈ l, ',' ∉ s.data) ∧ l ≠ [""] := by
  constructor
  · intro h
    constructor
    · intro s hs hc
      have hne : l ≠ [] := by
        intro hx; rw [hx] at hs; simp at hs
      have hcount := stringsJoin_count_comma l hne
      have hpos := sum_count_pos_of_mem l s hs hc
      have hlen : 0 < l.length := List.length_pos.mpr hne
      have hjoin : stringsJoin l "," ≠ "" := by
        intro hx
        rw [hx] at hcount
        simp at hcount
        omega
      rw [if_neg hjoin] at h
      have hl := congrArg List.length h
      simp only [stringsSplit, List.length_map, splitChars_length] at hl
      omega
    · intro hx
      subst hx
      simp [stringsJoin] at h
  · rintro ⟨hfree, hne1⟩
    by_cases hnil : l = []
    · subst hnil
      simp [stringsJoin]
    · have hsplit := splitChars_join_of_commaFree l hnil hfree
      have hjoin : stringsJoin l "," ≠ "" := by
        intro hx
        rw [hx] at hsplit
        simp only [splitChars] at hsplit
        cases l with
        | nil => exact hnil rfl
        | cons a tail =>
          cases tail with
          | nil =>
            simp only [List.map_cons, List.map_nil, List.cons.injEq, and_true] at hsplit
            apply hne1
            have : a = "" := String.ext hsplit.symm
            rw [this]
          | cons b rest => simp at hsplit
      rw [if_neg hjoin]
      simp only [stringsSplit, hsplit, List.map_map]
      have : (String.mk ∘ String.data) = id := by
        funext s; rfl
      rw [this, List.map_id]

/-- C22. For every list `l` of strings, joining `l` with `,` into the
mandates column (as `Bind` does) and reading it with `Mandates()`, or joining it
into the admin-roles column (`setAdminRoles`) and reading it with
`AdminRoles()`, returns `l` if and only if no element of `l` contains a comma
and `l` is not the one-element list holding the empty string. So after a
successful `Bind(doc)` on a Binding whose post-bind hook leaves the bound state
alone, `Mandates()` and `AdminRoles()` return the lists of `doc` exactly under
that condition. -/
theorem gorm_list_storage_lossless_iff (Key σ : Type) :
    (∀ (g : gormBinding σ) (l : List String),
      (gormBinding.Mandates ({ g with DBmandates := stringsJoin l "," } : gormBinding σ) = l
        ↔ (∀ s ∈ l, ',' ∉ s.data) ∧ l ≠ [""]) ∧
      ((g.setAdminRoles l).AdminRoles = l ↔ (∀ s ∈ l, ',' ∉ s.data) ∧ l ≠ [""])) ∧
    (∀ (codec : Codec Key) (store : Store σ) (g : gormBinding σ) (doc : ControllerBinding Key)
        (db : σ) (g1 : gormBinding σ) (db1 : σ),
      (∀ f, g.postBindFunc = some f →
        ∀ c d, (f (c, d)).1.boundColumns = c.boundColumns) →
      g.Bind codec store (some doc) db = .returned ((g1, db1), none) →
      (g1.Mandates = doc.Mandates
        ↔ (∀ s ∈ doc.Mandates, ',' ∉ s.data) ∧ doc.Mandates ≠ [""]) ∧
      (g1.AdminRoles = doc.AdminRoles
        ↔ (∀ s ∈ doc.AdminRoles, ',' ∉ s.data) ∧ doc.AdminRoles ≠ [""])) := by
  constructor
  · intro g l
    exact ⟨readBack_join_iff l, readBack_join_iff l⟩
  · intro codec store g doc db g1 db1 hhook h
    obtain ⟨_, h2, h3⟩ := gorm_bind_columns codec store g doc db g1 db1 hhook h
    constructor
    · unfold gormBinding.Mandates
      rw [h2]
      exact readBack_join_iff doc.Mandates
    · unfold gormBinding.AdminRoles
      rw [h3]
      exact readBack_join_iff doc.AdminRoles

/-- C22 at the relational binding `b1`: `Bind(demoDoc)` stores comma-free
lists, which are read back as they were; `Bind(demoCommaDoc)` stores the admin
role `ops,admin` and the mandate list `[""]`, neither of which is read back. -/
theorem gorm_list_storage_lossless_iff_witness :
    (demoGormBound.Mandates = ["def"] ∧ demoGormBound.AdminRoles = ["admin"]) ∧
    (demoGormCommaBound.Mandates ≠ [""] ∧ demoGormCommaBound.AdminRoles ≠ ["ops,admin"]) :=
  ⟨⟨((gorm_list_storage_lossless_iff String (List gormColumns)).2 demoJSON tableStore demoGorm
        demoDoc [] demoGormBound [demoGormBound.togormColumns]
        (by intro f hf; cases hf) rfl).1.mpr (by decide),
    ((gorm_list_storage_lossless_iff String (List gormColumns)).2 demoJSON tableStore demoGorm
        demoDoc [] demoGormBound [demoGormBound.togormColumns]
        (by intro f hf; cases hf) rfl).2.mpr (by decide)⟩,
   ⟨fun hx => absurd
      (((gorm_list_storage_lossless_iff String (List gormColumns)).2 demoJSON tableStore demoGorm
        demoCommaDoc [] demoGormCommaBound [demoGormCommaBound.togormColumns]
        (by intro f hf; cases hf) rfl).1.mp hx).2 (by decide),
    fun hx => absurd
      (((gorm_list_storage_lossless_iff String (List gormColumns)).2 demoJSON tableStore demoGorm
        demoCommaDoc [] demoGormCommaBound [demoGormCommaBound.togormColumns]
        (by intro f hf; cases hf) rfl).2.mp hx).1 (by decide)⟩⟩

end Controller
